import Mathlib

/-!
# Ratings subsystem of evercut_backend

A shallow embedding of `src/controllers/rating/ratingValidation.service.js`,
`src/controllers/rating/rating.controller.js` and `src/models/Rating.model.js`.

JavaScript values are an inductive type; a finite number is an exact rational, so
`Number.isInteger`, the comparisons and `Math.ceil` are exact (a double agrees with the
rational on the counts, limits and scores that occur here). A number read from a text, by
`parseInt` or by the coercion of `>`, is the double nearest to what the text writes, and
`Infinity` past the largest double. The store is a list of rating documents. The cast that
the schema applies to a `serviceDetails` on its way into the store belongs to the store
library and is a parameter of the store; `Date.parse`, a built-in of the engine whose
grammar is implementation-defined, is a parameter of the validators. The calls of a
controller to the store are taken on one snapshot.
-/

namespace Evercut

/-! ## JavaScript values -/

/-- A JavaScript value, as a decoded request body or a query string carries it. -/
inductive JsVal where
  | undefined : JsVal
  | null : JsVal
  | bool (b : Bool) : JsVal
  | num (q : ℚ) : JsVal
  | nan : JsVal
  | inf (negative : Bool) : JsVal
  | str (s : String) : JsVal
  | arr (items : List JsVal) : JsVal
  | obj (fields : List (String × JsVal)) : JsVal

/-- The own fields of an object, by key. -/
abbrev JsObject := List (String × JsVal)

/-- Property read `data.key` on an object (also what destructuring `const { key } = data`
binds): `undefined` when the key is missing. -/
def JsObject.get (data : JsObject) (key : String) : JsVal :=
  (data.lookup key).getD JsVal.undefined

namespace JsVal

instance : Inhabited JsVal := ⟨undefined⟩

/-- ToBoolean: `undefined`, `null`, `false`, `0`, `NaN` and `""` are falsy. -/
def truthy : JsVal → Bool
  | undefined => false
  | null => false
  | bool b => b
  | num q => decide (q ≠ 0)
  | nan => false
  | inf _ => true
  | str s => decide (s ≠ "")
  | arr _ => true
  | obj _ => true

/-- The `typeof` operator. -/
def typeof : JsVal → String
  | undefined => "undefined"
  | null => "object"
  | bool _ => "boolean"
  | num _ => "number"
  | nan => "number"
  | inf _ => "number"
  | str _ => "string"
  | arr _ => "object"
  | obj _ => "object"

/-- The test `v !== undefined`. -/
def isDefined : JsVal → Bool
  | undefined => false
  | _ => true

/-- Property read `v.key` on a value that is not `undefined` or `null`: the field of an
object, `undefined` when the value has no such field. -/
def get (v : JsVal) (key : String) : JsVal :=
  match v with
  | obj fields => JsObject.get fields key
  | _ => undefined

/-- The value is `undefined` or `null`: destructuring it throws a TypeError. -/
def isNullish : JsVal → Bool
  | undefined => true
  | null => true
  | _ => false

/-- `Number.isInteger(v)`: false for every value that is not a finite integral number. -/
def numberIsInteger : JsVal → Bool
  | num q => decide (q.den = 1)
  | _ => false

/-- The comparison `v < k` against a numeric literal. The validators compare only behind a
guard (`Number.isInteger`, `typeof … === 'number'`) that makes `v` a number, so the
coercion of other values is not needed; `NaN` compares false. -/
def ltNum (v : JsVal) (k : ℚ) : Bool :=
  match v with
  | num q => decide (q < k)
  | inf negative => negative
  | _ => false

/-- The comparison `v > k` against a numeric literal, as `ltNum`. -/
def gtNum (v : JsVal) (k : ℚ) : Bool :=
  match v with
  | num q => decide (k < q)
  | inf negative => !negative
  | _ => false

end JsVal

/-! ## Text and number conversions of the engine -/

/-- WhiteSpace and LineTerminator code points: what `trim` strips and the conversions of
text to a number skip. -/
def isJsWhiteSpace (c : Char) : Bool :=
  [0x9, 0xA, 0xB, 0xC, 0xD, 0x20, 0xA0, 0x1680, 0x2028, 0x2029, 0x202F, 0x205F, 0x3000,
    0xFEFF].contains c.toNat || (0x2000 ≤ c.toNat && c.toNat ≤ 0x200A)

/-- `String.prototype.trim`. -/
def jsTrim (s : String) : String :=
  String.mk ((s.data.dropWhile isJsWhiteSpace).reverse.dropWhile isJsWhiteSpace).reverse

/-- `String.prototype.toLowerCase`, on the ASCII letters. No other character lowers to a
letter of `asc` or `desc`, so the `includes` test that reads the result is the same. -/
def jsToLowerCase (s : String) : String := String.mk (s.data.map Char.toLower)

/-- `v.toLowerCase()`: a method of strings only; on any other value the call throws a
TypeError (`none`). -/
def JsVal.toLowerCase : JsVal → Option String
  | JsVal.str s => some (jsToLowerCase s)
  | _ => none

/-- The integer nearest to a rational, a tie going to the even one. -/
def roundHalfEven (x : ℚ) : ℤ :=
  if x - ⌊x⌋ < 1 / 2 then ⌊x⌋
  else if 1 / 2 < x - ⌊x⌋ then ⌊x⌋ + 1
  else if ⌊x⌋ % 2 = 0 then ⌊x⌋
  else ⌊x⌋ + 1

/-- The Number a mathematical value becomes: the IEEE 754 double nearest to it, a tie going
to the even significand (53 bits, subnormal below 2^-1022), an infinity from
2^1024 - 2^970 on. An integer below 2^53 is its own Number. -/
def toDouble (x : ℚ) : JsVal :=
  if x.den = 1 ∧ x.num.natAbs < 2 ^ 53 then JsVal.num x
  else if (2 : ℚ) ^ 1024 - (2 : ℚ) ^ 970 ≤ |x| then JsVal.inf (decide (x < 0))
  else
    JsVal.num ((if x < 0 then -1 else 1) *
      ((roundHalfEven (|x| / (2 : ℚ) ^ (max (Int.log 2 |x|) (-1022) - 52)) : ℚ) *
        (2 : ℚ) ^ (max (Int.log 2 |x|) (-1022) - 52)))

/-- Value of a character as a digit of the radix, if it is one. -/
def digitValue (radix : Nat) (c : Char) : Option Nat :=
  let d : Option Nat :=
    if 48 ≤ c.toNat ∧ c.toNat ≤ 57 then some (c.toNat - 48)
    else if 97 ≤ c.toNat ∧ c.toNat ≤ 122 then some (c.toNat - 87)
    else if 65 ≤ c.toNat ∧ c.toNat ≤ 90 then some (c.toNat - 55)
    else none
  d.filter (fun n => n < radix)

/-- The longest prefix of digits, as their values. -/
def digitPrefix (radix : Nat) : List Char → List Nat
  | [] => []
  | c :: cs =>
    match digitValue radix c with
    | some d => d :: digitPrefix radix cs
    | none => []

/-- The integer a list of digit values writes in the radix. -/
def digitsValue (radix : Nat) (digits : List Nat) : Nat :=
  digits.foldl (fun acc d => acc * radix + d) 0

/-- The Number a sign and a run of digits of the radix make: `NaN` when there is no
digit, else the Number nearest to the integer the digits write. -/
def signedDigits (negative : Bool) (radix : Nat) (digits : List Nat) : JsVal :=
  if digits.isEmpty then JsVal.nan
  else
    toDouble ((if negative then -(digitsValue radix digits : ℤ)
      else (digitsValue radix digits : ℤ) : ℤ) : ℚ)

/-- `parseInt(s)` of a string, no radix given: leading white space, a sign, an optional
`0x` prefix, then the longest run of digits; `NaN` when there is no digit, else the Number
nearest to the integer the digits write (rounded past 2^53, `Infinity` past the largest
double). -/
def parseIntString (s : String) : JsVal :=
  let cs := s.data.dropWhile isJsWhiteSpace
  let negative := cs.head? == some '-'
  let cs := if cs.head? == some '-' || cs.head? == some '+' then cs.tail else cs
  let hex := cs.take 2 == ['0', 'x'] || cs.take 2 == ['0', 'X']
  let radix := if hex then 16 else 10
  let cs := if hex then cs.drop 2 else cs
  signedDigits negative radix (digitPrefix radix cs)

/-- What the conversion of a value to text starts with: the value itself, or for an array
(its items joined by commas) what its first item starts with. -/
def headValue : JsVal → JsVal
  | JsVal.arr (x :: _) => headValue x
  | v => v

/-- `parseInt(v)`: the value is converted to a string first, of which the leading integer
is read. A number (here only the defaults `1` and `10` of the controllers) gives back its
integer part; of an array only the first item is read; `null`, `undefined`, booleans,
objects and the empty array convert to text without a leading digit. -/
def parseIntNumber (v : JsVal) : JsVal :=
  match headValue v with
  | JsVal.str s => parseIntString s
  | JsVal.num q => JsVal.num ((q.num.tdiv q.den : ℤ) : ℚ)
  | _ => JsVal.nan

/-- The integer a Number is, when it is one (`none` for `NaN`, the infinities, fractions
and values that are no number). -/
def JsVal.toInt? : JsVal → Option Int
  | JsVal.num q => if q.den = 1 then some q.num else none
  | _ => none

/-- The integer `parseInt(v)` returns, when it returns one: `none` when the result is
`NaN` or an infinity. -/
def parseInt (v : JsVal) : Option Int := (parseIntNumber v).toInt?

/-- `isNaN(v)` of a Number. -/
def JsVal.isNaN : JsVal → Bool
  | JsVal.nan => true
  | _ => false

/-- The digits of the radix a text consists of, as their values: `none` when the text is
empty or holds a character that is no digit. -/
def allDigits (radix : Nat) (cs : List Char) : Option (List Nat) :=
  if cs.isEmpty || (digitPrefix radix cs).length != cs.length then none
  else some (digitPrefix radix cs)

/-- The value of an unsigned decimal literal (digits, an optional fraction, an optional
exponent) that takes the whole text; `none` when the text is no such literal. -/
def decimalValue (u : List Char) : Option ℚ :=
  let whole := digitPrefix 10 u
  let rest := u.drop whole.length
  let dot := rest.head? == some '.'
  let fraction := if dot then digitPrefix 10 rest.tail else []
  let rest := if dot then rest.tail.drop fraction.length else rest
  let mantissa : ℚ := (digitsValue 10 (whole ++ fraction) : ℚ) / (10 : ℚ) ^ fraction.length
  if whole.isEmpty && fraction.isEmpty then none
  else if rest.isEmpty then some mantissa
  else if rest.head? == some 'e' || rest.head? == some 'E' then
    let negative := rest.tail.head? == some '-'
    let digits :=
      if rest.tail.head? == some '-' || rest.tail.head? == some '+' then rest.tail.tail
      else rest.tail
    match allDigits 10 digits with
    | some ds =>
      some (mantissa * (10 : ℚ) ^
        (if negative then -(digitsValue 10 ds : ℤ) else (digitsValue 10 ds : ℤ)))
    | none => none
  else none

/-- The Number of a text written in digits of a radix alone, `NaN` when it is not. -/
def radixValue (radix : Nat) (cs : List Char) : JsVal :=
  match allDigits radix cs with
  | some ds => toDouble (digitsValue radix ds : ℚ)
  | none => JsVal.nan

/-- ToNumber of a string: white space is trimmed; the empty text is `0`; else the text is
a `0x`, `0o` or `0b` literal, a signed `Infinity`, or a signed decimal literal, and
anything else is `NaN`. -/
def stringToNumber (s : String) : JsVal :=
  let t := (jsTrim s).data
  if t.isEmpty then JsVal.num 0
  else if t.take 2 == ['0', 'x'] || t.take 2 == ['0', 'X'] then radixValue 16 (t.drop 2)
  else if t.take 2 == ['0', 'o'] || t.take 2 == ['0', 'O'] then radixValue 8 (t.drop 2)
  else if t.take 2 == ['0', 'b'] || t.take 2 == ['0', 'B'] then radixValue 2 (t.drop 2)
  else
    let negative := t.head? == some '-'
    let u := if t.head? == some '-' || t.head? == some '+' then t.tail else t
    if u == ['I', 'n', 'f', 'i', 'n', 'i', 't', 'y'] then JsVal.inf negative
    else
      match decimalValue u with
      | some x => toDouble (if negative then -x else x)
      | none => JsVal.nan

/-- ToNumber of a value (`inArray = false`), and the Number of the text an item adds to
the text of an array (`inArray = true`, where `undefined` and `null` add nothing). An array
converts through its text, the items joined by commas: no item is `0`, one item is that
item's own text, more make a text with a comma, which is no number. An object converts to
the text `[object Object]`. (An object whose own `toString` or `valueOf` shadows the
built-in makes the conversion throw; the model has no such throw.) -/
def numberOf (inArray : Bool) : JsVal → JsVal
  | JsVal.undefined => if inArray then JsVal.num 0 else JsVal.nan
  | JsVal.null => JsVal.num 0
  | JsVal.bool b => if inArray then JsVal.nan else JsVal.num (if b then 1 else 0)
  | JsVal.num q => JsVal.num q
  | JsVal.nan => JsVal.nan
  | JsVal.inf negative => JsVal.inf negative
  | JsVal.str s => stringToNumber s
  | JsVal.arr [] => JsVal.num 0
  | JsVal.arr [x] => numberOf true x
  | JsVal.arr (_ :: _ :: _) => JsVal.nan
  | JsVal.obj _ => JsVal.nan

/-- ToNumber: the coercion of the comparison operators. -/
def toNumber (v : JsVal) : JsVal := numberOf false v

/-- Number of UTF-16 code units of a string: what `.length` returns. -/
def jsLength (s : String) : Nat :=
  (s.data.map (fun c => if c.val < 0x10000 then 1 else 2)).sum

/-- The test `v.length > k` on a truthy value: the code units of a string, the item count
of an array, the own `length` field of an object, coerced to a Number as `>` does; any
other value has no `length`, and `undefined > k` is false. -/
def JsVal.lengthGt (v : JsVal) (k : Nat) : Bool :=
  match v with
  | JsVal.str s => decide (k < jsLength s)
  | JsVal.arr items => decide (k < items.length)
  | JsVal.obj fields => (toNumber (JsObject.get fields "length")).gtNum k
  | _ => false

/-! ## Validation service (`ratingValidation.service.js`) -/

/-- The pair `{ isValid, errors }` every validator returns. -/
structure Validation where
  isValid : Bool
  errors : List String
  deriving DecidableEq, Repr

/-- One `if (cond) errors.push(msg)` step. -/
def push (errors : List String) (cond : Bool) (msg : String) : List String :=
  if cond then errors ++ [msg] else errors

/-- `!Date.parse(v)`: the parse gives `NaN` (here `none`) or the timestamp `0`. -/
def dateParseFalsy (dateParse : JsVal → Option Int) (v : JsVal) : Bool :=
  match dateParse v with
  | none => true
  | some t => decide (t = 0)

/-- `validateRatingData` (ratingValidation.service.js:3-52). -/
def validateRatingData (dateParse : JsVal → Option Int) (data : JsObject) : Validation :=
  let userFirebaseUid := data.get "userFirebaseUid"
  let barberFirebaseUid := data.get "barberFirebaseUid"
  let rating := data.get "rating"
  let reviewText := data.get "reviewText"
  let serviceDetails := data.get "serviceDetails"
  let errors : List String := []
  let errors := push errors (!userFirebaseUid.truthy || userFirebaseUid.typeof != "string")
    "User Firebase UID is required and must be a string"
  let errors := push errors (!barberFirebaseUid.truthy || barberFirebaseUid.typeof != "string")
    "Barber Firebase UID is required and must be a string"
  let errors := push errors
    (!rating.truthy || !rating.numberIsInteger || rating.ltNum 1 || rating.gtNum 5)
    "Rating must be an integer between 1 and 5"
  let errors := push errors (reviewText.truthy && reviewText.typeof != "string")
    "Review text must be a string"
  let errors := push errors (reviewText.truthy && reviewText.lengthGt 500)
    "Review text cannot exceed 500 characters"
  let errors :=
    if serviceDetails.truthy then
      if serviceDetails.typeof != "object" then
        errors ++ ["Service details must be an object"]
      else
        let serviceName := serviceDetails.get "serviceName"
        let serviceDate := serviceDetails.get "serviceDate"
        let servicePrice := serviceDetails.get "servicePrice"
        let errors := push errors (serviceName.truthy && serviceName.typeof != "string")
          "Service name must be a string"
        let errors := push errors (serviceDate.truthy && dateParseFalsy dateParse serviceDate)
          "Service date must be a valid date"
        let errors := push errors
          (servicePrice.truthy && (servicePrice.typeof != "number" || servicePrice.ltNum 0))
          "Service price must be a positive number"
        errors
    else errors
  { isValid := errors.length == 0, errors := errors }

/-- `validateRatingUpdateData` (ratingValidation.service.js:54-100). -/
def validateRatingUpdateData (dateParse : JsVal → Option Int) (data : JsObject) : Validation :=
  let rating := data.get "rating"
  let reviewText := data.get "reviewText"
  let serviceDetails := data.get "serviceDetails"
  let errors : List String := []
  let errors := push errors (!rating.truthy && !reviewText.truthy && !serviceDetails.truthy)
    "At least one field (rating, reviewText, or serviceDetails) must be provided for update"
  let errors := push errors
    (rating.isDefined && (!rating.numberIsInteger || rating.ltNum 1 || rating.gtNum 5))
    "Rating must be an integer between 1 and 5"
  let errors :=
    if reviewText.isDefined then
      if reviewText.typeof != "string" then
        errors ++ ["Review text must be a string"]
      else push errors (reviewText.lengthGt 500) "Review text cannot exceed 500 characters"
    else errors
  let errors :=
    if serviceDetails.truthy then
      if serviceDetails.typeof != "object" then
        errors ++ ["Service details must be an object"]
      else
        let serviceName := serviceDetails.get "serviceName"
        let serviceDate := serviceDetails.get "serviceDate"
        let servicePrice := serviceDetails.get "servicePrice"
        let errors := push errors (serviceName.truthy && serviceName.typeof != "string")
          "Service name must be a string"
        let errors := push errors (serviceDate.truthy && dateParseFalsy dateParse serviceDate)
          "Service date must be a valid date"
        let errors := push errors
          (servicePrice.truthy && (servicePrice.typeof != "number" || servicePrice.ltNum 0))
          "Service price must be a positive number"
        errors
    else errors
  { isValid := errors.length == 0, errors := errors }

/-- `validSortFields.includes(v)` and `validSortOrders.includes(v)`: strict equality with
one of the listed strings. -/
def includes (allowed : List String) (v : JsVal) : Bool :=
  match v with
  | JsVal.str s => allowed.contains s
  | _ => false

/-- `validateRatingQuery` (ratingValidation.service.js:102-155). `none` is the TypeError
that `sortOrder.toLowerCase()` throws on a `sortOrder` that is not a string. -/
def validateRatingQuery (query : JsObject) : Option Validation :=
  let page := query.get "page"
  let limit := query.get "limit"
  let minRating := query.get "minRating"
  let maxRating := query.get "maxRating"
  let sortBy := query.get "sortBy"
  let sortOrder := query.get "sortOrder"
  let errors : List String := []
  let errors :=
    if page.isDefined then
      push errors ((parseIntNumber page).isNaN || (parseIntNumber page).ltNum 1)
        "Page must be a positive integer"
    else errors
  let errors :=
    if limit.isDefined then
      push errors ((parseIntNumber limit).isNaN || (parseIntNumber limit).ltNum 1 ||
          (parseIntNumber limit).gtNum 100)
        "Limit must be a positive integer between 1 and 100"
    else errors
  let errors :=
    if minRating.isDefined then
      push errors ((parseIntNumber minRating).isNaN || (parseIntNumber minRating).ltNum 1 ||
          (parseIntNumber minRating).gtNum 5)
        "Minimum rating must be between 1 and 5"
    else errors
  let errors :=
    if maxRating.isDefined then
      push errors ((parseIntNumber maxRating).isNaN || (parseIntNumber maxRating).ltNum 1 ||
          (parseIntNumber maxRating).gtNum 5)
        "Maximum rating must be between 1 and 5"
    else errors
  let errors :=
    if sortBy.isDefined then
      push errors (!includes ["rating", "createdAt", "updatedAt"] sortBy)
        "Sort field must be one of: rating, createdAt, updatedAt"
    else errors
  if sortOrder.isDefined then
    match sortOrder.toLowerCase with
    | none => none
    | some lowered =>
      let errors := push errors (!includes ["asc", "desc"] (JsVal.str lowered))
        "Sort order must be either \"asc\" or \"desc\""
      some { isValid := errors.length == 0, errors := errors }
  else some { isValid := errors.length == 0, errors := errors }

/-! ## Data model (`Rating.model.js`) and store -/

/-- A rating document of the schema: the two ids, the score (a Number), the review text
(a String or `null`, here `none`), the service details as the schema's cast has left them,
and the two timestamps the store assigns. -/
structure Rating where
  userFirebaseUid : String
  barberFirebaseUid : String
  rating : ℚ
  reviewText : Option String
  serviceDetails : JsVal
  createdAt : Nat
  updatedAt : Nat

/-- The document answers to the key `{ userFirebaseUid, barberFirebaseUid }`. -/
def Rating.hasKey (r : Rating) (user barber : String) : Bool :=
  r.userFirebaseUid == user && r.barberFirebaseUid == barber

/-- The store the controllers read and write: the ratings, the ids of the `BarberSetup`
and `User` documents, and the cast that an update of the Rating model applies to a
`serviceDetails` before it writes (Rating.model.js:38-42: a strict schema with
`serviceName: String`, `serviceDate: Date`, `servicePrice: Number`). The cast belongs to
the store library and is a parameter here, as `Date.parse` is: it gives the value that is
stored, or `none` when it throws a CastError, and then nothing is written. -/
structure World where
  ratings : List Rating
  barbers : List String
  users : List String
  castServiceDetails : JsVal → Option JsVal

/-- The unique compound index of Rating.model.js:59: no two documents with one key. -/
def UniqueKeys (ratings : List Rating) : Prop :=
  ratings.Pairwise (fun a b => ¬ (a.userFirebaseUid = b.userFirebaseUid ∧
    a.barberFirebaseUid = b.barberFirebaseUid))

/-- `Rating.findOne({ userFirebaseUid, barberFirebaseUid })`. -/
def findOne (user barber : String) (ratings : List Rating) : Option Rating :=
  ratings.find? (fun r => r.hasKey user barber)

/-- `Rating.findOneAndUpdate(key, data, { upsert: true, new: true, runValidators: true })`
at time `now`, for a `data` that the schema's cast has passed: the first document with the
key gets the fields of `data` and a fresh `updatedAt`; when there is none a document is
inserted. Gives the collection and the written document. -/
def findOneAndUpdateUpsert (now : Nat) (user barber : String) (rating : ℚ)
    (reviewText : Option String) (serviceDetails : JsVal) :
    List Rating → List Rating × Rating
  | [] =>
    ([{ userFirebaseUid := user, barberFirebaseUid := barber, rating := rating,
        reviewText := reviewText, serviceDetails := serviceDetails,
        createdAt := now, updatedAt := now }],
     { userFirebaseUid := user, barberFirebaseUid := barber, rating := rating,
       reviewText := reviewText, serviceDetails := serviceDetails,
       createdAt := now, updatedAt := now })
  | r :: rest =>
    if r.hasKey user barber then
      ({ r with userFirebaseUid := user, barberFirebaseUid := barber, rating := rating,
                reviewText := reviewText, serviceDetails := serviceDetails,
                updatedAt := now } :: rest,
       { r with userFirebaseUid := user, barberFirebaseUid := barber, rating := rating,
                reviewText := reviewText, serviceDetails := serviceDetails,
                updatedAt := now })
    else
      (r :: (findOneAndUpdateUpsert now user barber rating reviewText serviceDetails rest).1,
       (findOneAndUpdateUpsert now user barber rating reviewText serviceDetails rest).2)

/-- What a controller sends: `res.status(status).json({ success, message, … })`, with the
`data` of a success or the `errors` of a failure (empty when the body has no such key). -/
inductive Reply (α : Type) where
  | success (status : Nat) (message : String) (data : α) : Reply α
  | failure (status : Nat) (message : String) (errors : List String) : Reply α

/-- The reply is a success. -/
def Reply.isSuccess {α : Type} : Reply α → Bool
  | Reply.success _ _ _ => true
  | Reply.failure _ _ _ => false

/-! ## Controller (`rating.controller.js`) -/

/-- `BarberSetup.findOne({ firebaseUid })` finds a document. The id is a string where the
lookup is reached (validated in `createRating`, a route parameter in `getBarberRatings`). -/
def barberExists (w : World) (barberFirebaseUid : JsVal) : Bool :=
  match barberFirebaseUid with
  | JsVal.str b => w.barbers.contains b
  | _ => false

/-- `reviewText?.trim() || null`: `null` for `undefined`, `null` and a string that trims to
empty, the trimmed string otherwise; on any other value `trim` is not a function and the
call throws a TypeError (outer `none`). -/
def trimOrNull : JsVal → Option (Option String)
  | JsVal.undefined => some none
  | JsVal.null => some none
  | JsVal.str s => some (if jsTrim s = "" then none else some (jsTrim s))
  | _ => none

/-- `serviceDetails || null`. -/
def orNull (v : JsVal) : JsVal := if v.truthy then v else JsVal.null

/-- `createRating` (rating.controller.js:11-93) for the authenticated `uid` and the decoded
body, at time `now`. Every throw inside the `try` is answered 500 by the `catch`: the
TypeError of destructuring a body that is `undefined` or `null`, and that of `trim` on a
value that is no string, and the CastError of the store on a `serviceDetails` (or the `null`
that stands for a falsy one) that the schema's cast refuses. After validation the barber id
is a string and the score a number, so the last branch stands for the throw of `trim` and
the CastError alone. The 409 of the `catch` answers the duplicate-key error of two
concurrent inserts, which calls made one after the other do not raise. -/
def createRating (dateParse : JsVal → Option Int) (now : Nat) (w : World) (uid : String)
    (body : JsVal) : Reply Rating × World :=
  if body.isNullish then
    (Reply.failure 500 "Internal server error while creating rating" [], w)
  else
  let userFirebaseUid := JsVal.str uid
  let barberFirebaseUid := body.get "barberFirebaseUid"
  let rating := body.get "rating"
  let reviewText := body.get "reviewText"
  let serviceDetails := body.get "serviceDetails"
  let validation := validateRatingData dateParse [
    ("userFirebaseUid", userFirebaseUid), ("barberFirebaseUid", barberFirebaseUid),
    ("rating", rating), ("reviewText", reviewText), ("serviceDetails", serviceDetails)]
  if !validation.isValid then
    (Reply.failure 400 "Validation failed" validation.errors, w)
  else if !barberExists w barberFirebaseUid then
    (Reply.failure 404 "Barber not found" [], w)
  else if !w.users.contains uid then
    (Reply.failure 404 "User not found" [], w)
  else
    match trimOrNull reviewText, barberFirebaseUid, rating,
        w.castServiceDetails (orNull serviceDetails) with
    | some text, JsVal.str barber, JsVal.num score, some details =>
      let written := findOneAndUpdateUpsert now uid barber score text details w.ratings
      (Reply.success 201 "Rating created successfully" written.2,
        { w with ratings := written.1 })
    | _, _, _, _ => (Reply.failure 500 "Internal server error while creating rating" [], w)

/-- The strict comparison `v === 'text'`. -/
def JsVal.isString (v : JsVal) (text : String) : Bool :=
  match v with
  | JsVal.str s => s == text
  | _ => false

/-- The filter of `getBarberRatings` (rating.controller.js:120-128) applied to a document:
the barber, and `$gte: parseInt(minRating)`, `$lte: parseInt(maxRating)` for each bound
that is truthy. A `NaN` bound matches no document; validation, which the controller runs
first, leaves a bound that is present an integer in [1, 5], so no bound is infinite. -/
def matchesQuery (barberFirebaseUid : String) (minRating maxRating : JsVal) (r : Rating) :
    Bool :=
  r.barberFirebaseUid == barberFirebaseUid &&
  (!minRating.truthy ||
    match parseInt minRating with
    | some n => decide ((n : ℚ) ≤ r.rating)
    | none => false) &&
  (!maxRating.truthy ||
    match parseInt maxRating with
    | some n => decide (r.rating ≤ (n : ℚ))
    | none => false)

/-- The field a `sortConfig` names, as a number; a name that is no field orders nothing. -/
def sortKey (sortBy : JsVal) (r : Rating) : ℚ :=
  match sortBy with
  | JsVal.str s =>
    if s = "rating" then r.rating
    else if s = "createdAt" then (r.createdAt : ℚ)
    else if s = "updatedAt" then (r.updatedAt : ℚ)
    else 0
  | _ => 0

/-- `.sort({ [sortBy]: direction })`: ascending for `1`, descending otherwise. Documents
with equal keys keep their store order (the store leaves their order open). -/
def sortRatings (sortBy : JsVal) (direction : Int) (ratings : List Rating) : List Rating :=
  if direction = 1 then
    ratings.insertionSort (fun a b => sortKey sortBy a ≤ sortKey sortBy b)
  else
    ratings.insertionSort (fun a b => sortKey sortBy b ≤ sortKey sortBy a)

/-- The one group the `$group` stage of rating.controller.js:149-161 gives. -/
structure RatingStats where
  averageRating : ℚ
  totalCount : Nat
  ratingDistribution : List ℚ

/-- `Rating.aggregate([{ $match: { barberFirebaseUid } }, { $group: { _id: null, … } }])`:
no group when no document matches, else the mean, the count and the pushed scores. -/
def aggregate (barberFirebaseUid : String) (ratings : List Rating) : List RatingStats :=
  let matched := ratings.filter (fun r => r.barberFirebaseUid == barberFirebaseUid)
  if matched.isEmpty then []
  else
    [{ averageRating := (matched.map (fun r => r.rating)).sum / (matched.length : ℚ),
       totalCount := matched.length,
       ratingDistribution := matched.map (fun r => r.rating) }]

/-- The object `ratingDistribution`: the five buckets, and the keys that scores outside
1..5 add (their value is `NaN`). -/
structure Distribution where
  one : Nat
  two : Nat
  three : Nat
  four : Nat
  five : Nat
  stray : List ℚ
  deriving DecidableEq

/-- The initial `{ 1: 0, 2: 0, 3: 0, 4: 0, 5: 0 }`. -/
def Distribution.zero : Distribution :=
  { one := 0, two := 0, three := 0, four := 0, five := 0, stray := [] }

/-- One step `ratingDistribution[rating]++`. -/
def Distribution.bump (d : Distribution) (rating : ℚ) : Distribution :=
  if rating = 1 then { d with one := d.one + 1 }
  else if rating = 2 then { d with two := d.two + 1 }
  else if rating = 3 then { d with three := d.three + 1 }
  else if rating = 4 then { d with four := d.four + 1 }
  else if rating = 5 then { d with five := d.five + 1 }
  else { d with stray := if rating ∈ d.stray then d.stray else d.stray ++ [rating] }

/-- The `pagination` object of a list reply. -/
structure Pagination where
  currentPage : Int
  totalPages : Int
  totalRatings : Nat
  hasNextPage : Bool
  hasPrevPage : Bool
  deriving DecidableEq

/-- The `pagination` literal of rating.controller.js:176-182 and 358-364 (the same text).
`Math.ceil(totalRatings / limitNum)` is the ceiling of the exact quotient. -/
def pagination (pageNum limitNum : Int) (totalRatings : Nat) : Pagination :=
  { currentPage := pageNum,
    totalPages := ⌈(totalRatings : ℚ) / (limitNum : ℚ)⌉,
    totalRatings := totalRatings,
    hasNextPage := decide (pageNum < ⌈(totalRatings : ℚ) / (limitNum : ℚ)⌉),
    hasPrevPage := decide (pageNum > 1) }

/-- The `statistics` object of `getBarberRatings`. -/
structure Statistics where
  averageRating : ℚ
  totalRatings : Nat
  ratingDistribution : Distribution

/-- The `data` of a `getBarberRatings` success. -/
structure BarberRatings where
  ratings : List Rating
  pagination : Pagination
  statistics : Statistics

/-- The `data` of a `getUserRatings` success. -/
structure UserRatings where
  ratings : List Rating
  pagination : Pagination

/-- A query parameter with its destructuring default: the default stands in for
`undefined` only. -/
def withDefault (v fallback : JsVal) : JsVal := if v.isDefined then v else fallback

/-- `getBarberRatings` (rating.controller.js:96-198) for the route parameter and the parsed
query string. A throw inside the `try` (the validator's TypeError) is answered 500. After
validation `limitNum` is an integer, and `pageNum` is an integer or `Infinity`; with
`Infinity` the skip `(pageNum - 1) * limitNum` is `Infinity`, the store takes no skip that
is not an integer, and the `catch` answers 500: the last branch. -/
def getBarberRatings (w : World) (barberFirebaseUid : String) (query : JsVal) :
    Reply BarberRatings :=
  let page := withDefault (query.get "page") (JsVal.num 1)
  let limit := withDefault (query.get "limit") (JsVal.num 10)
  let minRating := query.get "minRating"
  let maxRating := query.get "maxRating"
  let sortBy := withDefault (query.get "sortBy") (JsVal.str "createdAt")
  let sortOrder := withDefault (query.get "sortOrder") (JsVal.str "desc")
  match validateRatingQuery [("page", page), ("limit", limit),
      ("minRating", minRating), ("maxRating", maxRating), ("sortBy", sortBy),
      ("sortOrder", sortOrder)] with
  | none => Reply.failure 500 "Internal server error while fetching ratings" []
  | some validation =>
    if !validation.isValid then
      Reply.failure 400 "Invalid query parameters" validation.errors
    else if !barberExists w (JsVal.str barberFirebaseUid) then
      Reply.failure 404 "Barber not found" []
    else
      match parseInt page, parseInt limit with
      | some pageNum, some limitNum =>
        let skip := (pageNum - 1) * limitNum
        let direction : Int := if sortOrder.isString "asc" then 1 else -1
        let matched := w.ratings.filter (matchesQuery barberFirebaseUid minRating maxRating)
        let ratings := ((sortRatings sortBy direction matched).drop skip.toNat).take
          limitNum.toNat
        let totalRatings := matched.length
        let ratingStats := aggregate barberFirebaseUid w.ratings
        let ratingDistribution :=
          match ratingStats with
          | [] => Distribution.zero
          | stats :: _ => stats.ratingDistribution.foldl Distribution.bump Distribution.zero
        Reply.success 200 "Ratings retrieved successfully"
          { ratings := ratings,
            pagination := pagination pageNum limitNum totalRatings,
            statistics :=
              { averageRating :=
                  match ratingStats with
                  | [] => 0
                  | stats :: _ => stats.averageRating,
                totalRatings :=
                  match ratingStats with
                  | [] => 0
                  | stats :: _ => stats.totalCount,
                ratingDistribution := ratingDistribution } }
      | _, _ => Reply.failure 500 "Internal server error while fetching ratings" []

/-- `getUserRatings` (rating.controller.js:320-375) for the authenticated `uid`. As in
`getBarberRatings`, the last branch is the 500 that answers a skip of `Infinity`. -/
def getUserRatings (w : World) (uid : String) (query : JsVal) : Reply UserRatings :=
  let page := withDefault (query.get "page") (JsVal.num 1)
  let limit := withDefault (query.get "limit") (JsVal.num 10)
  let sortBy := withDefault (query.get "sortBy") (JsVal.str "createdAt")
  let sortOrder := withDefault (query.get "sortOrder") (JsVal.str "desc")
  match validateRatingQuery [("page", page), ("limit", limit),
      ("sortBy", sortBy), ("sortOrder", sortOrder)] with
  | none => Reply.failure 500 "Internal server error while fetching user ratings" []
  | some validation =>
    if !validation.isValid then
      Reply.failure 400 "Invalid query parameters" validation.errors
    else
      match parseInt page, parseInt limit with
      | some pageNum, some limitNum =>
        let skip := (pageNum - 1) * limitNum
        let direction : Int := if sortOrder.isString "asc" then 1 else -1
        let matched := w.ratings.filter (fun r => r.userFirebaseUid == uid)
        let ratings := ((sortRatings sortBy direction matched).drop skip.toNat).take
          limitNum.toNat
        let totalRatings := matched.length
        Reply.success 200 "User ratings retrieved successfully"
          { ratings := ratings, pagination := pagination pageNum limitNum totalRatings }
      | _, _ => Reply.failure 500 "Internal server error while fetching user ratings" []

/-- The update document of `updateRating` (rating.controller.js:258-262) after the schema's
cast: `updatedAt`, and each of the three fields when the payload has it (`none`: the key is
not set). -/
structure UpdateData where
  rating : Option ℚ
  reviewText : Option (Option String)
  serviceDetails : Option JsVal
  updatedAt : Nat

/-- A document with the keys of an update document written over it. -/
def Rating.write (r : Rating) (u : UpdateData) : Rating :=
  { r with rating := u.rating.getD r.rating,
           reviewText := u.reviewText.getD r.reviewText,
           serviceDetails := u.serviceDetails.getD r.serviceDetails,
           updatedAt := u.updatedAt }

/-- `Rating.findOneAndUpdate(key, updateData, { new: true, runValidators: true })` for an
update document that the schema's cast has passed: the first document with the key is
written; without one nothing is, and the result is `null` (`none`). -/
def findOneAndUpdate (user barber : String) (u : UpdateData) :
    List Rating → List Rating × Option Rating
  | [] => ([], none)
  | r :: rest =>
    if r.hasKey user barber then (r.write u :: rest, some (r.write u))
    else
      (r :: (findOneAndUpdate user barber u rest).1, (findOneAndUpdate user barber u rest).2)

/-- `Rating.findOneAndDelete(key)`: the first document with the key is removed and
returned; `null` (`none`) without one. -/
def findOneAndDelete (user barber : String) : List Rating → List Rating × Option Rating
  | [] => ([], none)
  | r :: rest =>
    if r.hasKey user barber then (rest, some r)
    else (r :: (findOneAndDelete user barber rest).1, (findOneAndDelete user barber rest).2)

/-- The schema's Number cast of a score to store: validation has made it a number. -/
def scoreOf : JsVal → Option ℚ
  | JsVal.num q => some q
  | _ => none

/-- `updateRating` (rating.controller.js:233-284) for the authenticated `uid`, the route
parameter and the decoded body, at time `now`. A throw inside the `try` is answered 500:
destructuring a body that is `undefined` or `null`, and the CastError of the store on a
present `serviceDetails` that the schema's cast refuses; after validation a present score
is a number and a present review text a string, so their cast and `trim` do not throw. -/
def updateRating (dateParse : JsVal → Option Int) (now : Nat) (w : World)
    (uid barberFirebaseUid : String) (body : JsVal) : Reply (Option Rating) × World :=
  if body.isNullish then
    (Reply.failure 500 "Internal server error while updating rating" [], w)
  else
  let rating := body.get "rating"
  let reviewText := body.get "reviewText"
  let serviceDetails := body.get "serviceDetails"
  let validation := validateRatingUpdateData dateParse [("rating", rating),
    ("reviewText", reviewText), ("serviceDetails", serviceDetails)]
  if !validation.isValid then
    (Reply.failure 400 "Validation failed" validation.errors, w)
  else
    match findOne uid barberFirebaseUid w.ratings with
    | none => (Reply.failure 404 "Rating not found" [], w)
    | some _ =>
      let ratingKey : Option (Option ℚ) :=
        if rating.isDefined then (scoreOf rating).map some else some none
      let reviewTextKey : Option (Option (Option String)) :=
        if reviewText.isDefined then (trimOrNull reviewText).map some else some none
      let serviceDetailsKey : Option (Option JsVal) :=
        if serviceDetails.isDefined then (w.castServiceDetails serviceDetails).map some
        else some none
      match ratingKey, reviewTextKey, serviceDetailsKey with
      | some score, some text, some details =>
        let updateData : UpdateData :=
          { rating := score, reviewText := text, serviceDetails := details,
            updatedAt := now }
        let written := findOneAndUpdate uid barberFirebaseUid updateData w.ratings
        (Reply.success 200 "Rating updated successfully" written.2,
          { w with ratings := written.1 })
      | _, _, _ => (Reply.failure 500 "Internal server error while updating rating" [], w)

/-- `deleteRating` (rating.controller.js:287-317) for the authenticated `uid` and the route
parameter. -/
def deleteRating (w : World) (uid barberFirebaseUid : String) : Reply Rating × World :=
  match (findOneAndDelete uid barberFirebaseUid w.ratings).2 with
  | none => (Reply.failure 404 "Rating not found" [], w)
  | some deletedRating =>
    (Reply.success 200 "Rating deleted successfully" deletedRating,
      { w with ratings := (findOneAndDelete uid barberFirebaseUid w.ratings).1 })

/-! ## Predicates of the specification -/

/-- A score as the data model wants it: an integer in [1,5]. -/
def IsScore (v : JsVal) : Prop := ∃ n : ℤ, 1 ≤ n ∧ n ≤ 5 ∧ v = JsVal.num n

/-- A scalar value: a number, a boolean or a string. -/
def IsScalar (v : JsVal) : Prop :=
  (∃ q, v = JsVal.num q) ∨ v = JsVal.nan ∨ (∃ n, v = JsVal.inf n) ∨
    (∃ b, v = JsVal.bool b) ∨ (∃ s, v = JsVal.str s)

/-- A page number of 310 digits, above every finite Number. -/
def overflowingPage : String := String.mk ('1' :: List.replicate 309 '0')

/-- A review of 501 characters, one over the limit. -/
def longReview : String := String.mk (List.replicate 501 'a')

/-- The cast of the sample stores, after the strict schema of Rating.model.js:38-42 on the
values the examples use: a record keeps its `serviceName`, `serviceDate` and `servicePrice`
and loses every other key, a record whose `serviceDate` is a boolean is a CastError
(`none`), and a value that is no record, such as `null`, is left as it is. -/
def sampleCast : JsVal → Option JsVal
  | JsVal.obj fields =>
    match JsObject.get fields "serviceDate" with
    | JsVal.bool _ => none
    | _ =>
      some (JsVal.obj (fields.filter
        (fun field => ["serviceName", "serviceDate", "servicePrice"].contains field.1)))
  | v => some v

/-- A rating document with no review and no service details, written at time `t`. -/
def sampleRating (user barber : String) (score : ℚ) (t : Nat) : Rating :=
  { userFirebaseUid := user, barberFirebaseUid := barber, rating := score,
    reviewText := none, serviceDetails := JsVal.null, createdAt := t, updatedAt := t }

/-- One barber with three ratings, of scores 5, 3 and 2. -/
def threeRatings : World :=
  { ratings := [sampleRating "u1" "b1" 5 1, sampleRating "u2" "b1" 3 2,
      sampleRating "u3" "b1" 2 3],
    barbers := ["b1"], users := ["u1", "u2", "u3"], castServiceDetails := sampleCast }

/-- The `createRating` call passes validation and both existence checks. -/
def PassesChecks (dateParse : JsVal → Option Int) (w : World) (uid : String) (body : JsVal) :
    Prop :=
  (validateRatingData dateParse [
    ("userFirebaseUid", JsVal.str uid),
    ("barberFirebaseUid", body.get "barberFirebaseUid"),
    ("rating", body.get "rating"), ("reviewText", body.get "reviewText"),
    ("serviceDetails", body.get "serviceDetails")]).isValid = true ∧
  barberExists w (body.get "barberFirebaseUid") = true ∧
  w.users.contains uid = true

/-- One barber, one user, no rating yet. -/
def freshWorld : World :=
  { ratings := [], barbers := ["b1"], users := ["u1"], castServiceDetails := sampleCast }

/-- The filter a list request names: the barber, and each bound that is supplied. -/
def SatisfiesFilter (barber : String) (minRating maxRating : JsVal) (r : Rating) : Prop :=
  r.barberFirebaseUid = barber ∧
  (minRating ≠ JsVal.undefined → ∃ n : ℤ, parseInt minRating = some n ∧ (n : ℚ) ≤ r.rating) ∧
  (maxRating ≠ JsVal.undefined → ∃ n : ℤ, parseInt maxRating = some n ∧ r.rating ≤ (n : ℚ))

/-! ## Lemmas on the error list -/

theorem mem_push {x : String} {errors : List String} {cond : Bool} {msg : String} :
    x ∈ push errors cond msg ↔ x ∈ errors ∨ (cond = true ∧ x = msg) := by
  unfold push
  cases cond <;> simp

theorem push_ne_nil_of_mem {x : String} {errors : List String} (h : x ∈ errors) :
    (errors.length == 0) = false := by
  cases errors with
  | nil => cases h
  | cons a t => rfl

theorem filter_push (p : String → Bool) (errors : List String) (cond : Bool) (msg : String) :
    (push errors cond msg).filter p =
      if p msg then push (errors.filter p) cond msg else errors.filter p := by
  unfold push
  cases cond <;> cases hp : p msg <;> simp [List.filter_append, hp]

/-- The score test of `validateRatingData` passes only a score. -/
theorem isScore_of_ratingCheck {v : JsVal}
    (h : (!v.truthy || !v.numberIsInteger || v.ltNum 1 || v.gtNum 5) = false) : IsScore v := by
  cases v <;> simp [JsVal.truthy, JsVal.numberIsInteger, JsVal.ltNum, JsVal.gtNum] at h
  case num q =>
    obtain ⟨⟨⟨_, hden⟩, h1⟩, h5⟩ := h
    refine ⟨q.num, ?_, ?_, ?_⟩
    · have : ((1 : ℤ) : ℚ) ≤ (q.num : ℚ) := by
        rw [Rat.coe_int_num_of_den_eq_one hden]; simpa using h1
      exact_mod_cast this
    · have : (q.num : ℚ) ≤ ((5 : ℤ) : ℚ) := by
        rw [Rat.coe_int_num_of_den_eq_one hden]; simpa using h5
      exact_mod_cast this
    · rw [Rat.coe_int_num_of_den_eq_one hden]

/-- The score test of `validateRatingUpdateData` passes only a score. -/
theorem isScore_of_updateCheck {v : JsVal}
    (h : (!v.numberIsInteger || v.ltNum 1 || v.gtNum 5) = false) : IsScore v := by
  apply isScore_of_ratingCheck
  cases v <;> simp_all [JsVal.truthy, JsVal.numberIsInteger, JsVal.ltNum, JsVal.gtNum]
  case num q =>
    rintro rfl
    obtain ⟨⟨_, h1⟩, _⟩ := h
    norm_num at h1

theorem push_length_eq_zero {errors : List String} {cond : Bool} {msg : String} :
    ((push errors cond msg).length == 0) = true ↔
      (errors.length == 0) = true ∧ cond = false := by
  unfold push
  cases cond <;> simp

theorem guarded_push_length_eq_zero {errors : List String} {present cond : Bool}
    {msg : String} :
    ((if present = true then push errors cond msg else errors).length == 0) = true ↔
      (errors.length == 0) = true ∧ (present = true → cond = false) := by
  cases present
  · simp
  · simpa using @push_length_eq_zero errors cond msg

/-! ## Lemmas on the Number conversions -/

theorem toInt?_num_intCast (n : ℤ) : (JsVal.num (n : ℚ)).toInt? = some n := by
  simp [JsVal.toInt?]

theorem toInt?_eq_some {v : JsVal} {n : ℤ} (h : v.toInt? = some n) : v = JsVal.num n := by
  cases v <;> simp [JsVal.toInt?] at h
  case num q =>
    obtain ⟨hd, hn⟩ := h
    rw [← hn, Rat.coe_int_num_of_den_eq_one hd]

/-- The Number of an integer is an integer or an infinity. -/
theorem toDouble_intCast (z : ℤ) :
    (∃ n : ℤ, toDouble z = JsVal.num n) ∨ (∃ b, toDouble z = JsVal.inf b) := by
  unfold toDouble
  by_cases hsmall : z.natAbs < 2 ^ 53
  · left
    exact ⟨z, if_pos ⟨Rat.intCast_den z, by simpa using hsmall⟩⟩
  · have hfast : ¬ (((z : ℚ).den = 1) ∧ (z : ℚ).num.natAbs < 2 ^ 53) := by
      simp only [Rat.intCast_num, not_and]
      exact fun _ => hsmall
    rw [if_neg hfast]
    by_cases hover : (2 : ℚ) ^ 1024 - (2 : ℚ) ^ 970 ≤ |(z : ℚ)|
    · right
      exact ⟨_, by rw [if_pos hover]⟩
    · left
      rw [if_neg hover]
      have habs : ((2 : ℕ) : ℚ) ^ ((53 : ℕ) : ℤ) ≤ |(z : ℚ)| := by
        have h1 : (2 : ℤ) ^ 53 ≤ |z| := by
          have := Int.natCast_natAbs z
          omega
        have h2 : ((2 : ℤ) ^ 53 : ℚ) ≤ ((|z| : ℤ) : ℚ) := by exact_mod_cast h1
        rw [zpow_natCast]
        simpa [Int.cast_abs] using h2
      have hpos : (0 : ℚ) < |(z : ℚ)| := lt_of_lt_of_le (by positivity) habs
      have hlog : ((53 : ℕ) : ℤ) ≤ Int.log 2 |(z : ℚ)| :=
        (Int.zpow_le_iff_le_log (by norm_num) hpos).mp habs
      have hlog' : (53 : ℤ) ≤ Int.log 2 |(z : ℚ)| := by simpa using hlog
      have hmax : max (Int.log 2 |(z : ℚ)|) (-1022) = Int.log 2 |(z : ℚ)| :=
        max_eq_left (by omega)
      rw [hmax]
      have hexp : Int.log 2 |(z : ℚ)| - 52 =
          ((Int.log 2 |(z : ℚ)| - 52).toNat : ℤ) := (Int.toNat_of_nonneg (by omega)).symm
      rw [hexp, zpow_natCast]
      refine ⟨(if (z : ℚ) < 0 then -1 else 1) *
        (roundHalfEven (|(z : ℚ)| / (2 : ℚ) ^ (Int.log 2 |(z : ℚ)| - 52).toNat) *
          2 ^ (Int.log 2 |(z : ℚ)| - 52).toNat), ?_⟩
      congr 1
      split_ifs <;> push_cast <;> ring

theorem signedDigits_cases (negative : Bool) (radix : Nat) (digits : List Nat) :
    signedDigits negative radix digits = JsVal.nan ∨
      (∃ n : ℤ, signedDigits negative radix digits = JsVal.num n) ∨
      (∃ b, signedDigits negative radix digits = JsVal.inf b) := by
  unfold signedDigits
  split
  · exact Or.inl rfl
  · exact Or.inr (toDouble_intCast _)

theorem parseIntString_cases (s : String) :
    parseIntString s = JsVal.nan ∨ (∃ n : ℤ, parseIntString s = JsVal.num n) ∨
      (∃ b, parseIntString s = JsVal.inf b) := by
  unfold parseIntString
  exact signedDigits_cases _ _ _

/-- `parseInt` returns `NaN`, an integer or an infinity. -/
theorem parseIntNumber_cases (v : JsVal) :
    parseIntNumber v = JsVal.nan ∨ (∃ n : ℤ, parseIntNumber v = JsVal.num n) ∨
      (∃ b, parseIntNumber v = JsVal.inf b) := by
  unfold parseIntNumber
  split
  · exact parseIntString_cases _
  · exact Or.inr (Or.inl ⟨_, rfl⟩)
  · exact Or.inl rfl

/-- A parse that passes `isNaN(n) || n < 1 || n > hi` is an integer from 1 to `hi`. -/
theorem bounded_of_test {v : JsVal} {hi : ℤ}
    (h : ((parseIntNumber v).isNaN || (parseIntNumber v).ltNum 1 ||
      (parseIntNumber v).gtNum (hi : ℚ)) = false) :
    ∃ n : ℤ, parseInt v = some n ∧ 1 ≤ n ∧ n ≤ hi := by
  unfold parseInt
  rcases parseIntNumber_cases v with hn | ⟨n, hn⟩ | ⟨b, hn⟩ <;> rw [hn] at h ⊢
  · simp [JsVal.isNaN] at h
  · simp only [JsVal.isNaN, JsVal.ltNum, JsVal.gtNum, Bool.false_or, Bool.or_eq_false_iff,
      decide_eq_false_iff_not, not_lt] at h
    have h1 : ((1 : ℤ) : ℚ) ≤ (n : ℚ) := by simpa using h.1
    exact ⟨n, toInt?_num_intCast n, by exact_mod_cast h1, by exact_mod_cast h.2⟩
  · cases b <;> simp [JsVal.isNaN, JsVal.ltNum, JsVal.gtNum] at h

/-- A parse that passes `isNaN(n) || n < 1` is an integer from 1 on, or `Infinity`. -/
theorem page_of_test {v : JsVal}
    (h : ((parseIntNumber v).isNaN || (parseIntNumber v).ltNum 1) = false) :
    (∃ n : ℤ, parseInt v = some n ∧ 1 ≤ n) ∨ parseIntNumber v = JsVal.inf false := by
  unfold parseInt
  rcases parseIntNumber_cases v with hn | ⟨n, hn⟩ | ⟨b, hn⟩ <;> rw [hn] at h ⊢
  · simp [JsVal.isNaN] at h
  · simp only [JsVal.isNaN, JsVal.ltNum, Bool.false_or, decide_eq_false_iff_not,
      not_lt] at h
    have h1 : ((1 : ℤ) : ℚ) ≤ (n : ℚ) := by simpa using h
    exact Or.inl ⟨n, toInt?_num_intCast n, by exact_mod_cast h1⟩
  · cases b
    · exact Or.inr rfl
    · simp [JsVal.isNaN, JsVal.ltNum] at h

/-- A `length` that is the text "600" is above 500: `>` reads the text as a number. -/
theorem lengthGt_text : (JsVal.obj [("length", JsVal.str "600")]).lengthGt 500 = true := by
  have h1 : (jsTrim "600").data = ['6', '0', '0'] := by decide
  have h2 : toNumber (JsVal.str "600") = JsVal.num 600 := by
    show stringToNumber "600" = JsVal.num 600
    unfold stringToNumber
    simp [h1, decimalValue, digitPrefix, digitValue, digitsValue, Option.filter, toDouble]
  show (toNumber (JsVal.str "600")).gtNum 500 = true
  rw [h2]
  simp only [JsVal.gtNum, decide_eq_true_eq]
  norm_num

set_option maxRecDepth 10000 in
/-- The Number of the page text that is too long for a finite Number. -/
theorem parseIntNumber_overflowingPage :
    parseIntNumber (JsVal.str overflowingPage) = JsVal.inf false := by
  have hd : digitsValue 10 (digitPrefix 10 overflowingPage.data) = 10 ^ 309 := by
    decide
  have hs : parseIntString overflowingPage =
      toDouble (((digitsValue 10 (digitPrefix 10 overflowingPage.data) : ℕ) : ℤ) : ℚ) := by
    rfl
  show parseIntString overflowingPage = JsVal.inf false
  rw [hs, hd]
  unfold toDouble
  have hbig : ¬ ((((10 ^ 309 : ℕ) : ℤ) : ℚ).den = 1 ∧
      (((10 ^ 309 : ℕ) : ℤ) : ℚ).num.natAbs < 2 ^ 53) := by
    intro h
    have h2 := h.2
    rw [Rat.intCast_num] at h2
    norm_num at h2
  have hover : (2 : ℚ) ^ 1024 - (2 : ℚ) ^ 970 ≤ |(((10 ^ 309 : ℕ) : ℤ) : ℚ)| := by
    rw [abs_of_nonneg (by positivity)]
    norm_num
  rw [if_neg hbig, if_pos hover]
  have hneg : ¬ ((((10 ^ 309 : ℕ) : ℤ) : ℚ) < 0) := not_lt.mpr (by positivity)
  simp only [hneg, decide_False]

/-! ## Lemmas on the list controllers -/

theorem withDefault_isDefined (v fallback : JsVal) (h : fallback.isDefined = true) :
    (withDefault v fallback).isDefined = true := by
  unfold withDefault
  split_ifs with hv
  · exact hv
  · exact h

/-- What an accepted query has passed: each parameter that is present parses in range. -/
theorem validateRatingQuery_valid {query : JsObject} {validation : Validation}
    (h : validateRatingQuery query = some validation) (hv : validation.isValid = true) :
    ((query.get "page").isDefined = true →
      ((parseIntNumber (query.get "page")).isNaN ||
        (parseIntNumber (query.get "page")).ltNum 1) = false) ∧
    ((query.get "limit").isDefined = true →
      ((parseIntNumber (query.get "limit")).isNaN ||
        (parseIntNumber (query.get "limit")).ltNum 1 ||
        (parseIntNumber (query.get "limit")).gtNum 100) = false) ∧
    ((query.get "minRating").isDefined = true →
      ((parseIntNumber (query.get "minRating")).isNaN ||
        (parseIntNumber (query.get "minRating")).ltNum 1 ||
        (parseIntNumber (query.get "minRating")).gtNum 5) = false) ∧
    ((query.get "maxRating").isDefined = true →
      ((parseIntNumber (query.get "maxRating")).isNaN ||
        (parseIntNumber (query.get "maxRating")).ltNum 1 ||
        (parseIntNumber (query.get "maxRating")).gtNum 5) = false) := by
  unfold validateRatingQuery at h
  simp only at h
  split at h
  · split at h
    · cases h
    · injection h with h
      subst h
      simp only [push_length_eq_zero, guarded_push_length_eq_zero] at hv
      tauto
  · injection h with h
    subst h
    simp only [guarded_push_length_eq_zero] at hv
    tauto

/-- The bounds validation leaves on the parsed page and limit. -/
theorem page_limit_bounds {page limit : JsVal} {pageNum limitNum : Int}
    (hp : parseInt page = some pageNum) (hl : parseInt limit = some limitNum)
    (hpv : ((parseIntNumber page).isNaN || (parseIntNumber page).ltNum 1) = false)
    (hlv : ((parseIntNumber limit).isNaN || (parseIntNumber limit).ltNum 1 ||
      (parseIntNumber limit).gtNum 100) = false) :
    1 ≤ pageNum ∧ 1 ≤ limitNum ∧ limitNum ≤ 100 := by
  have hp' := toInt?_eq_some hp
  have hl' := toInt?_eq_some hl
  rw [hp'] at hpv
  rw [hl'] at hlv
  simp only [JsVal.isNaN, JsVal.ltNum, JsVal.gtNum, Bool.false_or, Bool.or_eq_false_iff,
    decide_eq_false_iff_not, not_lt] at hpv hlv
  have h1 : ((1 : ℤ) : ℚ) ≤ (pageNum : ℚ) := by simpa using hpv
  have h2 : ((1 : ℤ) : ℚ) ≤ (limitNum : ℚ) := by simpa using hlv.1
  have h3 : (limitNum : ℚ) ≤ ((100 : ℤ) : ℚ) := by simpa using hlv.2
  exact ⟨by exact_mod_cast h1, by exact_mod_cast h2, by exact_mod_cast h3⟩

/-- What a successful `getBarberRatings` has computed. -/
theorem getBarberRatings_success {w : World} {barber : String} {query : JsVal}
    {status : Nat} {msg : String} {data : BarberRatings}
    (h : getBarberRatings w barber query = Reply.success status msg data) :
    ∃ pageNum limitNum : Int,
      parseInt (withDefault (query.get "page") (JsVal.num 1)) = some pageNum ∧
      parseInt (withDefault (query.get "limit") (JsVal.num 10)) = some limitNum ∧
      1 ≤ pageNum ∧ 1 ≤ limitNum ∧ limitNum ≤ 100 ∧
      data.ratings =
        ((sortRatings (withDefault (query.get "sortBy") (JsVal.str "createdAt"))
          (if (withDefault (query.get "sortOrder") (JsVal.str "desc")).isString "asc"
            then 1 else -1)
          (w.ratings.filter (matchesQuery barber (query.get "minRating")
            (query.get "maxRating")))).drop ((pageNum - 1) * limitNum).toNat).take
          limitNum.toNat ∧
      data.pagination = pagination pageNum limitNum
        (w.ratings.filter (matchesQuery barber (query.get "minRating")
          (query.get "maxRating"))).length ∧
      data.statistics.averageRating =
        (match aggregate barber w.ratings with
          | [] => 0
          | stats :: _ => stats.averageRating) ∧
      data.statistics.totalRatings =
        (match aggregate barber w.ratings with
          | [] => 0
          | stats :: _ => stats.totalCount) ∧
      data.statistics.ratingDistribution =
        (match aggregate barber w.ratings with
          | [] => Distribution.zero
          | stats :: _ =>
            stats.ratingDistribution.foldl Distribution.bump Distribution.zero) := by
  unfold getBarberRatings at h
  simp only at h
  split at h
  · cases h
  · rename_i validation hq
    split at h
    · cases h
    · rename_i hv
      split at h
      · cases h
      · split at h
        · rename_i pageNum limitNum hp hl
          injection h with _ _ hd
          subst hd
          have hvalid : validation.isValid = true := by simpa using hv
          obtain ⟨hpv, hlv, -, -⟩ := validateRatingQuery_valid hq hvalid
          have hpd := withDefault_isDefined (query.get "page") (JsVal.num 1) rfl
          have hld := withDefault_isDefined (query.get "limit") (JsVal.num 10) rfl
          simp only [JsVal.get, List.lookup, Option.getD_some] at hpv hlv
          have hb := page_limit_bounds hp hl (hpv hpd) (hlv hld)
          exact ⟨pageNum, limitNum, hp, hl, hb.1, hb.2.1, hb.2.2, rfl, rfl, rfl, rfl, rfl⟩
        · cases h

/-- What a successful `getUserRatings` has computed. -/
theorem getUserRatings_success {w : World} {uid : String} {query : JsVal}
    {status : Nat} {msg : String} {data : UserRatings}
    (h : getUserRatings w uid query = Reply.success status msg data) :
    ∃ pageNum limitNum : Int,
      parseInt (withDefault (query.get "page") (JsVal.num 1)) = some pageNum ∧
      parseInt (withDefault (query.get "limit") (JsVal.num 10)) = some limitNum ∧
      1 ≤ pageNum ∧ 1 ≤ limitNum ∧ limitNum ≤ 100 ∧
      data.ratings =
        ((sortRatings (withDefault (query.get "sortBy") (JsVal.str "createdAt"))
          (if (withDefault (query.get "sortOrder") (JsVal.str "desc")).isString "asc"
            then 1 else -1)
          (w.ratings.filter (fun r => r.userFirebaseUid == uid))).drop
            ((pageNum - 1) * limitNum).toNat).take limitNum.toNat ∧
      data.pagination = pagination pageNum limitNum
        (w.ratings.filter (fun r => r.userFirebaseUid == uid)).length := by
  unfold getUserRatings at h
  simp only at h
  split at h
  · cases h
  · rename_i validation hq
    split at h
    · cases h
    · rename_i hv
      split at h
      · rename_i pageNum limitNum hp hl
        injection h with _ _ hd
        subst hd
        have hvalid : validation.isValid = true := by simpa using hv
        obtain ⟨hpv, hlv, -, -⟩ := validateRatingQuery_valid hq hvalid
        have hpd := withDefault_isDefined (query.get "page") (JsVal.num 1) rfl
        have hld := withDefault_isDefined (query.get "limit") (JsVal.num 10) rfl
        simp only [JsVal.get, List.lookup, Option.getD_some] at hpv hlv
        have hb := page_limit_bounds hp hl (hpv hpd) (hlv hld)
        exact ⟨pageNum, limitNum, hp, hl, hb.1, hb.2.1, hb.2.2, rfl, rfl⟩
      · cases h

/-! ## Lemmas on the upsert -/

/-- The written document carries the key and the fields of the update. -/
theorem upsert_written (now : Nat) (user barber : String) (rating : ℚ)
    (reviewText : Option String) (serviceDetails : JsVal) (ratings : List Rating) :
    (findOneAndUpdateUpsert now user barber rating reviewText serviceDetails ratings).2.userFirebaseUid
        = user ∧
    (findOneAndUpdateUpsert now user barber rating reviewText serviceDetails ratings).2.barberFirebaseUid
        = barber ∧
    (findOneAndUpdateUpsert now user barber rating reviewText serviceDetails ratings).2.rating
        = rating ∧
    (findOneAndUpdateUpsert now user barber rating reviewText serviceDetails ratings).2.reviewText
        = reviewText ∧
    (findOneAndUpdateUpsert now user barber rating reviewText serviceDetails ratings).2.serviceDetails
        = serviceDetails ∧
    (findOneAndUpdateUpsert now user barber rating reviewText serviceDetails ratings).2.updatedAt
        = now := by
  induction ratings with
  | nil => simp [findOneAndUpdateUpsert]
  | cons r rest ih =>
    unfold findOneAndUpdateUpsert
    split_ifs with hk
    · simp
    · exact ih

theorem hasKey_iff (r : Rating) (user barber : String) :
    r.hasKey user barber = true ↔ r.userFirebaseUid = user ∧ r.barberFirebaseUid = barber := by
  simp [Rating.hasKey]

/-- The documents of every other key are left as they were, in their order. -/
theorem upsert_frame (now : Nat) (user barber : String) (rating : ℚ)
    (reviewText : Option String) (serviceDetails : JsVal) (ratings : List Rating) :
    (findOneAndUpdateUpsert now user barber rating reviewText serviceDetails ratings).1.filter
        (fun r => !r.hasKey user barber) =
      ratings.filter (fun r => !r.hasKey user barber) := by
  induction ratings with
  | nil => simp [findOneAndUpdateUpsert, Rating.hasKey]
  | cons r rest ih =>
    unfold findOneAndUpdateUpsert
    split_ifs with hk
    · rw [hasKey_iff] at hk
      simp [List.filter_cons, Rating.hasKey, hk.1, hk.2]
    · dsimp only
      rw [List.filter_cons, List.filter_cons, ih]

/-- Under the unique index the written document is the only one of its key. -/
theorem upsert_single (now : Nat) (user barber : String) (rating : ℚ)
    (reviewText : Option String) (serviceDetails : JsVal) (ratings : List Rating)
    (hu : UniqueKeys ratings) :
    (findOneAndUpdateUpsert now user barber rating reviewText serviceDetails ratings).1.filter
        (fun r => r.hasKey user barber) =
      [(findOneAndUpdateUpsert now user barber rating reviewText serviceDetails ratings).2] := by
  induction ratings with
  | nil => simp [findOneAndUpdateUpsert, Rating.hasKey]
  | cons r rest ih =>
    unfold UniqueKeys at hu
    rw [List.pairwise_cons] at hu
    unfold findOneAndUpdateUpsert
    split_ifs with hk
    · have hrest : rest.filter (fun r => r.hasKey user barber) = [] := by
        rw [List.filter_eq_nil_iff]
        intro b hb hbk
        rw [hasKey_iff] at hk hbk
        exact hu.1 b hb ⟨hk.1.trans hbk.1.symm, hk.2.trans hbk.2.symm⟩
      dsimp only
      rw [List.filter_cons, hrest]
      simp [Rating.hasKey]
    · dsimp only
      rw [List.filter_cons]
      simp only [hk, Bool.false_eq_true, if_false]
      exact ih hu.2

/-- The upsert keeps the unique index. -/
theorem upsert_unique (now : Nat) (user barber : String) (rating : ℚ)
    (reviewText : Option String) (serviceDetails : JsVal) (ratings : List Rating)
    (hu : UniqueKeys ratings) :
    UniqueKeys
      (findOneAndUpdateUpsert now user barber rating reviewText serviceDetails ratings).1 := by
  induction ratings with
  | nil => simp [findOneAndUpdateUpsert, UniqueKeys]
  | cons r rest ih =>
    unfold UniqueKeys at hu ⊢
    rw [List.pairwise_cons] at hu
    unfold findOneAndUpdateUpsert
    split_ifs with hk
    · rw [hasKey_iff] at hk
      rw [List.pairwise_cons]
      refine ⟨?_, hu.2⟩
      intro b hb hbk
      exact hu.1 b hb ⟨hk.1.trans hbk.1, hk.2.trans hbk.2⟩
    · rw [List.pairwise_cons]
      refine ⟨?_, ih hu.2⟩
      intro b hb hbk
      by_cases hbkey : b.hasKey user barber = true
      · rw [hasKey_iff] at hbkey
        apply hk
        rw [hasKey_iff]
        exact ⟨hbk.1.trans hbkey.1, hbk.2.trans hbkey.2⟩
      · have hmem : b ∈ (findOneAndUpdateUpsert now user barber rating reviewText
            serviceDetails rest).1.filter (fun r => !r.hasKey user barber) := by
          rw [List.mem_filter]
          exact ⟨hb, by simpa using hbkey⟩
        rw [upsert_frame, List.mem_filter] at hmem
        exact hu.1 b hmem.1 hbk

/-- A second upsert of the same fields changes nothing but `updatedAt`. -/
theorem upsert_twice (now now' : Nat) (user barber : String) (rating : ℚ)
    (reviewText : Option String) (serviceDetails : JsVal) (ratings : List Rating) :
    (findOneAndUpdateUpsert now' user barber rating reviewText serviceDetails
        (findOneAndUpdateUpsert now user barber rating reviewText serviceDetails
          ratings).1).1.map (fun r => { r with updatedAt := 0 }) =
      (findOneAndUpdateUpsert now user barber rating reviewText serviceDetails
        ratings).1.map (fun r => { r with updatedAt := 0 }) := by
  induction ratings with
  | nil => simp [findOneAndUpdateUpsert, Rating.hasKey]
  | cons r rest ih =>
    rw [findOneAndUpdateUpsert]
    split_ifs with hk
    · simp [findOneAndUpdateUpsert, Rating.hasKey]
    · simp only
      rw [findOneAndUpdateUpsert]
      simp only [hk, Bool.false_eq_true, if_false, List.map_cons, ih]

/-! ## Lemmas on `createRating` -/

/-- What a valid create payload holds: a string barber id, a score, and a review text
that is falsy or a string. -/
theorem validateRatingData_valid {dateParse : JsVal → Option Int} {data : JsObject}
    (h : (validateRatingData dateParse data).isValid = true) :
    (∃ b, data.get "barberFirebaseUid" = JsVal.str b) ∧
    (∃ n : ℤ, 1 ≤ n ∧ n ≤ 5 ∧ data.get "rating" = JsVal.num n) ∧
    ((data.get "reviewText").truthy = true → ∃ t, data.get "reviewText" = JsVal.str t) := by
  have hb : (!(data.get "barberFirebaseUid").truthy ||
      (data.get "barberFirebaseUid").typeof != "string") = false := by
    by_contra hc
    have hm : "Barber Firebase UID is required and must be a string" ∈
        (validateRatingData dateParse data).errors := by
      simp only [validateRatingData]
      split_ifs <;> simp [mem_push, hc]
    have := push_ne_nil_of_mem hm
    simp only [validateRatingData] at h this
    rw [h] at this
    cases this
  have hr : (!(data.get "rating").truthy || !(data.get "rating").numberIsInteger ||
      (data.get "rating").ltNum 1 || (data.get "rating").gtNum 5) = false := by
    by_contra hc
    have hm : "Rating must be an integer between 1 and 5" ∈
        (validateRatingData dateParse data).errors := by
      simp only [validateRatingData]
      split_ifs <;> simp [mem_push, hc]
    have := push_ne_nil_of_mem hm
    simp only [validateRatingData] at h this
    rw [h] at this
    cases this
  have ht : ((data.get "reviewText").truthy &&
      (data.get "reviewText").typeof != "string") = false := by
    by_contra hc
    have hm : "Review text must be a string" ∈ (validateRatingData dateParse data).errors := by
      simp only [validateRatingData]
      split_ifs <;> simp [mem_push, hc]
    have := push_ne_nil_of_mem hm
    simp only [validateRatingData] at h this
    rw [h] at this
    cases this
  refine ⟨?_, isScore_of_ratingCheck hr, ?_⟩
  · cases hv : data.get "barberFirebaseUid" <;> rw [hv] at hb <;>
      simp [JsVal.truthy, JsVal.typeof] at hb
    exact ⟨_, rfl⟩
  · intro htr
    rw [htr] at ht
    cases hv : data.get "reviewText" <;> rw [hv] at ht <;> simp [JsVal.typeof] at ht
    exact ⟨_, rfl⟩

/-- A call that passes the three checks, whose review text `trim` can take and whose
service details the schema's cast accepts, writes the upsert and answers 201. -/
theorem createRating_accepted (dateParse : JsVal → Option Int) (now : Nat) (w : World)
    (uid : String) (body : JsVal) (text : Option String) (stored : JsVal)
    (hc : PassesChecks dateParse w uid body)
    (ht : trimOrNull (body.get "reviewText") = some text)
    (hcast : w.castServiceDetails (orNull (body.get "serviceDetails")) = some stored) :
    ∃ (barber : String) (score : ℤ), 1 ≤ score ∧ score ≤ 5 ∧
      body.get "barberFirebaseUid" = JsVal.str barber ∧
      body.get "rating" = JsVal.num score ∧
      createRating dateParse now w uid body =
        (Reply.success 201 "Rating created successfully"
          (findOneAndUpdateUpsert now uid barber score text stored w.ratings).2,
         { w with ratings :=
            (findOneAndUpdateUpsert now uid barber score text stored w.ratings).1 }) := by
  obtain ⟨hv, hb, hu⟩ := hc
  obtain ⟨⟨barber, hbar⟩, ⟨score, h1, h5, hscore⟩, -⟩ := validateRatingData_valid hv
  have hbar' : body.get "barberFirebaseUid" = JsVal.str barber := hbar
  have hscore' : body.get "rating" = JsVal.num score := hscore
  have hbody : body.isNullish = false := by
    cases body <;> first | rfl | cases hbar'
  refine ⟨barber, score, h1, h5, hbar', hscore', ?_⟩
  unfold createRating
  simp only [hbody, hv, hb, hu, Bool.not_true, Bool.false_eq_true, if_false]
  rw [ht, hbar', hscore', hcast]

/-- Either `createRating` fails and leaves the collections as they were, or the call has
passed the three checks, `trim` has taken the review text and the cast the details. -/
theorem createRating_cases (dateParse : JsVal → Option Int) (now : Nat) (w : World)
    (uid : String) (body : JsVal) :
    ((createRating dateParse now w uid body).2 = w ∧
      (createRating dateParse now w uid body).1.isSuccess = false) ∨
    (PassesChecks dateParse w uid body ∧
      ∃ text stored, trimOrNull (body.get "reviewText") = some text ∧
        w.castServiceDetails (orNull (body.get "serviceDetails")) = some stored) := by
  unfold createRating PassesChecks
  simp only
  split
  · exact Or.inl ⟨rfl, rfl⟩
  · split
    · exact Or.inl ⟨rfl, rfl⟩
    · rename_i hv
      split
      · exact Or.inl ⟨rfl, rfl⟩
      · rename_i hb
        split
        · exact Or.inl ⟨rfl, rfl⟩
        · rename_i hu
          split
          · rename_i text barber score details ht _ _ hd
            refine Or.inr ⟨⟨by simpa using hv, by simpa using hb, by simpa using hu⟩,
              text, details, ht, hd⟩
          · exact Or.inl ⟨rfl, rfl⟩

/-! ## Lemmas on update and delete -/

theorem findOne_eq_none {user barber : String} {ratings : List Rating}
    (h : ∀ r ∈ ratings, r.hasKey user barber = false) : findOne user barber ratings = none := by
  unfold findOne
  rw [List.find?_eq_none]
  intro r hr
  simp [h r hr]

theorem hasKey_write (r : Rating) (u : UpdateData) (user barber : String) :
    (r.write u).hasKey user barber = r.hasKey user barber := rfl

/-- The update writes the first document of the key and no other. -/
theorem findOneAndUpdate_found (user barber : String) (u : UpdateData) (ratings : List Rating)
    (old : Rating) (h : findOne user barber ratings = some old) :
    (findOneAndUpdate user barber u ratings).2 = some (old.write u) ∧
    findOne user barber (findOneAndUpdate user barber u ratings).1 = some (old.write u) ∧
    (findOneAndUpdate user barber u ratings).1.filter (fun r => !r.hasKey user barber) =
      ratings.filter (fun r => !r.hasKey user barber) ∧
    (findOneAndUpdate user barber u ratings).1.length = ratings.length := by
  induction ratings with
  | nil => cases h
  | cons r rest ih =>
    unfold findOne at h ih
    rw [List.find?_cons] at h
    unfold findOneAndUpdate
    by_cases hk : r.hasKey user barber = true
    · simp only [hk, if_true] at h ⊢
      injection h with h
      subst h
      refine ⟨rfl, ?_, ?_, rfl⟩
      · unfold findOne
        rw [List.find?_cons]
        simp [hasKey_write, hk]
      · simp [List.filter_cons, hasKey_write, hk]
    · have hk' : r.hasKey user barber = false := by simpa using hk
      simp only [hk', Bool.false_eq_true, if_false] at h ⊢
      obtain ⟨h1, h2, h3, h4⟩ := ih h
      refine ⟨h1, ?_, ?_, ?_⟩
      · unfold findOne
        rw [List.find?_cons]
        simp only [hk']
        exact h2
      · rw [List.filter_cons, List.filter_cons, h3]
      · simp [h4]

/-- The delete removes the first document of the key and no other. -/
theorem findOneAndDelete_spec (user barber : String) (ratings : List Rating) :
    (findOneAndDelete user barber ratings).2 = findOne user barber ratings ∧
    (findOneAndDelete user barber ratings).1 =
      ratings.eraseP (fun r => r.hasKey user barber) ∧
    (findOneAndDelete user barber ratings).1.filter (fun r => !r.hasKey user barber) =
      ratings.filter (fun r => !r.hasKey user barber) := by
  induction ratings with
  | nil => exact ⟨rfl, rfl, rfl⟩
  | cons r rest ih =>
    unfold findOneAndDelete findOne
    rw [List.find?_cons, List.eraseP_cons]
    by_cases hk : r.hasKey user barber = true
    · simp [hk, List.filter_cons]
    · have hk' : r.hasKey user barber = false := by simpa using hk
      obtain ⟨h1, h2, h3⟩ := ih
      unfold findOne at h1
      simp only [hk', Bool.false_eq_true, if_false, cond_false]
      refine ⟨h1, by rw [h2], ?_⟩
      rw [List.filter_cons, List.filter_cons, h3]

/-- Under the unique index, no document of the key is left after the delete. -/
theorem findOneAndDelete_none_left (user barber : String) (ratings : List Rating)
    (hu : UniqueKeys ratings) :
    findOne user barber (findOneAndDelete user barber ratings).1 = none := by
  induction ratings with
  | nil => rfl
  | cons r rest ih =>
    unfold UniqueKeys at hu
    rw [List.pairwise_cons] at hu
    unfold findOneAndDelete
    by_cases hk : r.hasKey user barber = true
    · simp only [hk, if_true]
      apply findOne_eq_none
      intro b hb
      by_contra hbk
      have hbk' : b.hasKey user barber = true := by simpa using hbk
      rw [hasKey_iff] at hk hbk'
      exact hu.1 b hb ⟨hk.1.trans hbk'.1.symm, hk.2.trans hbk'.2.symm⟩
    · have hk' : r.hasKey user barber = false := by simpa using hk
      simp only [hk', Bool.false_eq_true, if_false]
      unfold findOne
      rw [List.find?_cons]
      simp only [hk']
      exact ih hu.2

/-- What a valid update payload holds: a present score is an integer in [1,5] and a
present review text a string. -/
theorem validateRatingUpdateData_valid {dateParse : JsVal → Option Int} {data : JsObject}
    (h : (validateRatingUpdateData dateParse data).isValid = true) :
    ((data.get "rating").isDefined = true →
      ∃ n : ℤ, 1 ≤ n ∧ n ≤ 5 ∧ data.get "rating" = JsVal.num n) ∧
    ((data.get "reviewText").isDefined = true → ∃ t, data.get "reviewText" = JsVal.str t) ∧
    ((data.get "rating").truthy = true ∨ (data.get "reviewText").truthy = true ∨
      (data.get "serviceDetails").truthy = true) := by
  have hnil : ∀ m, m ∈ (validateRatingUpdateData dateParse data).errors → False := by
    intro m hm
    have := push_ne_nil_of_mem hm
    simp only [validateRatingUpdateData] at h this
    rw [h] at this
    cases this
  refine ⟨?_, ?_, ?_⟩
  · intro hd
    apply isScore_of_updateCheck
    by_contra hc
    apply hnil "Rating must be an integer between 1 and 5"
    simp only [validateRatingUpdateData]
    split_ifs <;> simp [mem_push, hd, hc]
  · intro hd
    have ht : ((data.get "reviewText").typeof != "string") = false := by
      by_contra hc
      apply hnil "Review text must be a string"
      simp only [validateRatingUpdateData, hd, if_true]
      split_ifs <;> simp [mem_push, hc] at *
    cases hv : data.get "reviewText" <;> rw [hv] at ht <;> simp [JsVal.typeof] at ht
    exact ⟨_, rfl⟩
  · by_contra hc
    apply hnil
      "At least one field (rating, reviewText, or serviceDetails) must be provided for update"
    simp only [not_or, Bool.not_eq_true] at hc
    simp only [validateRatingUpdateData]
    split_ifs <;> simp [mem_push, hc]

/-- A valid update of an existing rating writes the update document and answers 200. -/
theorem updateRating_accepted (dateParse : JsVal → Option Int) (now : Nat) (w : World)
    (uid barber : String) (body : JsVal) (old : Rating) (score : Option ℚ)
    (text : Option (Option String)) (details : Option JsVal)
    (hold : findOne uid barber w.ratings = some old)
    (hv : (validateRatingUpdateData dateParse [("rating", body.get "rating"),
      ("reviewText", body.get "reviewText"),
      ("serviceDetails", body.get "serviceDetails")]).isValid = true)
    (hscore : (if (body.get "rating").isDefined then (scoreOf (body.get "rating")).map some
      else some none) = some score)
    (htext : (if (body.get "reviewText").isDefined then
      (trimOrNull (body.get "reviewText")).map some else some none) = some text)
    (hdetails : (if (body.get "serviceDetails").isDefined then
      (w.castServiceDetails (body.get "serviceDetails")).map some else some none) =
      some details) :
    updateRating dateParse now w uid barber body =
      (Reply.success 200 "Rating updated successfully"
        (findOneAndUpdate uid barber
          { rating := score, reviewText := text, serviceDetails := details,
            updatedAt := now } w.ratings).2,
       { w with ratings := (findOneAndUpdate uid barber
          { rating := score, reviewText := text, serviceDetails := details,
            updatedAt := now } w.ratings).1 }) := by
  have hbody : body.isNullish = false := by
    obtain ⟨-, -, htruthy⟩ := validateRatingUpdateData_valid hv
    cases body <;> first | rfl | (exfalso; revert htruthy; simp [JsVal.get, JsObject.get,
      List.lookup, JsVal.truthy])
  unfold updateRating
  simp only [hbody, hv, hold, Bool.not_true, Bool.false_eq_true, if_false]
  rw [hscore, htext, hdetails]

/-! ## Lemmas on the histogram -/

/-- Folding scores that are integers in [1,5] into a histogram adds each to its bucket and
adds no stray key. -/
theorem foldl_bump_scores (scores : List ℚ) (d : Distribution)
    (h : ∀ q ∈ scores, ∃ n : ℤ, 1 ≤ n ∧ n ≤ 5 ∧ q = n) :
    (scores.foldl Distribution.bump d).one =
      d.one + (scores.filter (fun q => decide (q = 1))).length ∧
    (scores.foldl Distribution.bump d).two =
      d.two + (scores.filter (fun q => decide (q = 2))).length ∧
    (scores.foldl Distribution.bump d).three =
      d.three + (scores.filter (fun q => decide (q = 3))).length ∧
    (scores.foldl Distribution.bump d).four =
      d.four + (scores.filter (fun q => decide (q = 4))).length ∧
    (scores.foldl Distribution.bump d).five =
      d.five + (scores.filter (fun q => decide (q = 5))).length ∧
    (scores.foldl Distribution.bump d).stray = d.stray ∧
    (scores.foldl Distribution.bump d).one + (scores.foldl Distribution.bump d).two +
      (scores.foldl Distribution.bump d).three + (scores.foldl Distribution.bump d).four +
      (scores.foldl Distribution.bump d).five =
      d.one + d.two + d.three + d.four + d.five + scores.length := by
  induction scores generalizing d with
  | nil => simp
  | cons q rest ih =>
    obtain ⟨n, h1, h5, hq⟩ := h q (List.mem_cons_self q rest)
    have hrest : ∀ x ∈ rest, ∃ n : ℤ, 1 ≤ n ∧ n ≤ 5 ∧ x = n :=
      fun x hx => h x (List.mem_cons_of_mem q hx)
    obtain ⟨i1, i2, i3, i4, i5, i6, i7⟩ := ih (d.bump q) hrest
    rw [List.foldl_cons, i1, i2, i3, i4, i5, i6]
    subst hq
    interval_cases n <;> simp [Distribution.bump, List.filter_cons] <;> omega

/-! ## Lemmas on the parsed query -/

/-- A value that parses to a positive integer is truthy. -/
theorem parseInt_truthy {v : JsVal} {n : ℤ} (h : parseInt v = some n) (hn : 1 ≤ n) :
    v.truthy = true := by
  cases v with
  | str s =>
    by_cases hs : s = ""
    · subst hs
      have : parseInt (JsVal.str "") = none := by decide
      rw [this] at h
      cases h
    · simp [JsVal.truthy, hs]
  | num q =>
    by_cases hq : q = 0
    · subst hq
      have : parseInt (JsVal.num 0) = some 0 := by
        simp [parseInt, parseIntNumber, headValue, JsVal.toInt?]
      rw [this] at h
      injection h with h
      omega
    · simp [JsVal.truthy, hq]
  | arr items => rfl
  | obj fields => rfl
  | undefined => simp [parseInt, parseIntNumber, headValue, JsVal.toInt?] at h
  | null => simp [parseInt, parseIntNumber, headValue, JsVal.toInt?] at h
  | bool b => simp [parseInt, parseIntNumber, headValue, JsVal.toInt?] at h
  | nan => simp [parseInt, parseIntNumber, headValue, JsVal.toInt?] at h
  | inf negative => simp [parseInt, parseIntNumber, headValue, JsVal.toInt?] at h

theorem isDefined_iff (v : JsVal) : v.isDefined = true ↔ v ≠ JsVal.undefined := by
  cases v <;> simp [JsVal.isDefined]

theorem mem_sortRatings (sortBy : JsVal) (direction : Int) (ratings : List Rating)
    (r : Rating) : r ∈ sortRatings sortBy direction ratings ↔ r ∈ ratings := by
  unfold sortRatings
  split_ifs
  · exact (List.perm_insertionSort _ _).mem_iff
  · exact (List.perm_insertionSort _ _).mem_iff

/-- What a successful `getBarberRatings` has checked of the rating bounds. -/
theorem getBarberRatings_bounds {w : World} {barber : String} {query : JsVal}
    {status : Nat} {msg : String} {data : BarberRatings}
    (h : getBarberRatings w barber query = Reply.success status msg data) :
    (query.get "minRating" ≠ JsVal.undefined →
      ∃ n : ℤ, parseInt (query.get "minRating") = some n ∧ 1 ≤ n ∧ n ≤ 5 ∧
        (query.get "minRating").truthy = true) ∧
    (query.get "maxRating" ≠ JsVal.undefined →
      ∃ n : ℤ, parseInt (query.get "maxRating") = some n ∧ 1 ≤ n ∧ n ≤ 5 ∧
        (query.get "maxRating").truthy = true) := by
  unfold getBarberRatings at h
  simp only at h
  split at h
  · cases h
  · rename_i validation hq
    split at h
    · cases h
    · rename_i hv
      have hvalid : validation.isValid = true := by simpa using hv
      obtain ⟨-, -, hmin, hmax⟩ := validateRatingQuery_valid hq hvalid
      constructor
      · intro hd
        obtain ⟨n, hn, h1, h5⟩ :=
          @bounded_of_test (JsVal.get query "minRating") 5
            (by simpa using hmin ((isDefined_iff _).mpr hd))
        exact ⟨n, hn, h1, h5, parseInt_truthy hn h1⟩
      · intro hd
        obtain ⟨n, hn, h1, h5⟩ :=
          @bounded_of_test (JsVal.get query "maxRating") 5
            (by simpa using hmax ((isDefined_iff _).mpr hd))
        exact ⟨n, hn, h1, h5, parseInt_truthy hn h1⟩

/-- On an accepted query the filter of the controller is the filter the request names. -/
theorem matchesQuery_iff {barber : String} {minRating maxRating : JsVal} (r : Rating)
    (hmin : minRating ≠ JsVal.undefined →
      ∃ n : ℤ, parseInt minRating = some n ∧ 1 ≤ n ∧ n ≤ 5 ∧ minRating.truthy = true)
    (hmax : maxRating ≠ JsVal.undefined →
      ∃ n : ℤ, parseInt maxRating = some n ∧ 1 ≤ n ∧ n ≤ 5 ∧ maxRating.truthy = true) :
    matchesQuery barber minRating maxRating r = true ↔
      SatisfiesFilter barber minRating maxRating r := by
  unfold matchesQuery SatisfiesFilter
  have hA : ((!minRating.truthy ||
      match parseInt minRating with
      | some n => decide ((n : ℚ) ≤ r.rating)
      | none => false) = true) ↔
      (minRating ≠ JsVal.undefined →
        ∃ n : ℤ, parseInt minRating = some n ∧ (n : ℚ) ≤ r.rating) := by
    by_cases hd : minRating = JsVal.undefined
    · subst hd
      simp [JsVal.truthy]
    · obtain ⟨n, hn, -, -, ht⟩ := hmin hd
      simp [hn, ht, hd]
  have hB : ((!maxRating.truthy ||
      match parseInt maxRating with
      | some n => decide (r.rating ≤ (n : ℚ))
      | none => false) = true) ↔
      (maxRating ≠ JsVal.undefined →
        ∃ n : ℤ, parseInt maxRating = some n ∧ r.rating ≤ (n : ℚ)) := by
    by_cases hd : maxRating = JsVal.undefined
    · subst hd
      simp [JsVal.truthy]
    · obtain ⟨n, hn, -, -, ht⟩ := hmax hd
      simp [hn, ht, hd]
  rw [Bool.and_eq_true, Bool.and_eq_true, hA, hB, beq_iff_eq, and_assoc]

/-! ## Validation theorems -/

/-- C2. Whenever the score is not an integer in [1,5], `validateRatingData` reports
'Rating must be an integer between 1 and 5', and `validateRatingUpdateData` reports it when
the score is present; two payloads that agree on every key but `rating` get the same errors
apart from the score error (and, for update, the 'at least one field' error). -/
theorem score_error_reported (dateParse : JsVal → Option Int) (data data' : JsObject) :
    (¬ IsScore (data.get "rating") →
      "Rating must be an integer between 1 and 5" ∈ (validateRatingData dateParse data).errors) ∧
    (data.get "rating" ≠ JsVal.undefined → ¬ IsScore (data.get "rating") →
      "Rating must be an integer between 1 and 5" ∈
        (validateRatingUpdateData dateParse data).errors) ∧
    ((∀ key, key ≠ "rating" → data.get key = data'.get key) →
      (validateRatingData dateParse data).errors.filter
          (fun e => e != "Rating must be an integer between 1 and 5") =
        (validateRatingData dateParse data').errors.filter
          (fun e => e != "Rating must be an integer between 1 and 5") ∧
      (validateRatingUpdateData dateParse data).errors.filter
          (fun e => e != "Rating must be an integer between 1 and 5" &&
            e != "At least one field (rating, reviewText, or serviceDetails) must be provided for update") =
        (validateRatingUpdateData dateParse data').errors.filter
          (fun e => e != "Rating must be an integer between 1 and 5" &&
            e != "At least one field (rating, reviewText, or serviceDetails) must be provided for update")) := by
  refine ⟨?_, ?_, ?_⟩
  · intro hs
    have hc : (!(data.get "rating").truthy || !(data.get "rating").numberIsInteger ||
        (data.get "rating").ltNum 1 || (data.get "rating").gtNum 5) = true := by
      by_contra hne
      exact hs (isScore_of_ratingCheck (by simpa using hne))
    simp only [validateRatingData]
    split_ifs <;> simp [mem_push, hc]
  · intro hd hs
    have hc : ((data.get "rating").isDefined && (!(data.get "rating").numberIsInteger ||
        (data.get "rating").ltNum 1 || (data.get "rating").gtNum 5)) = true := by
      have h1 : (data.get "rating").isDefined = true := by
        cases h : data.get "rating" <;> simp_all [JsVal.isDefined]
      rw [h1, Bool.true_and]
      by_contra hne
      exact hs (isScore_of_updateCheck (by simpa using hne))
    simp only [validateRatingUpdateData]
    split_ifs <;> simp [mem_push, hc]
  · intro hsame
    have e1 := hsame "userFirebaseUid" (by decide)
    have e2 := hsame "barberFirebaseUid" (by decide)
    have e3 := hsame "reviewText" (by decide)
    have e4 := hsame "serviceDetails" (by decide)
    constructor
    · simp only [validateRatingData, e1, e2, e3, e4]
      split_ifs <;> simp [filter_push, List.filter_append]
    · simp only [validateRatingUpdateData, e3, e4]
      split_ifs <;> simp [filter_push, List.filter_append]

theorem score_error_reported_witness :
    "Rating must be an integer between 1 and 5" ∈
      (validateRatingData (fun _ => none) [("rating", JsVal.num 7)]).errors ∧
    "Rating must be an integer between 1 and 5" ∈
      (validateRatingUpdateData (fun _ => none) [("rating", JsVal.num 7)]).errors ∧
    (validateRatingData (fun _ => none) [("rating", JsVal.num 7)]).errors.filter
        (fun e => e != "Rating must be an integer between 1 and 5") =
      (validateRatingData (fun _ => none)
        [("rating", JsVal.str "five")]).errors.filter
        (fun e => e != "Rating must be an integer between 1 and 5") := by
  have hnot : ¬ IsScore (JsObject.get [("rating", JsVal.num 7)] "rating") := by
    rintro ⟨n, _, h5, h⟩
    simp only [JsObject.get, List.lookup, beq_self_eq_true, Option.getD_some,
      JsVal.num.injEq] at h
    have h7 : (7 : ℤ) = n := by exact_mod_cast h
    omega
  have hdef : JsObject.get [("rating", JsVal.num 7)] "rating" ≠ JsVal.undefined := by
    simp [JsObject.get, List.lookup]
  have hsame : ∀ key, key ≠ "rating" → JsObject.get [("rating", JsVal.num 7)] key =
      JsObject.get [("rating", JsVal.str "five")] key := by
    intro key hk
    have hb : (key == "rating") = false := by simpa using hk
    simp [JsObject.get, List.lookup, hb]
  have h := score_error_reported (fun _ => none) [("rating", JsVal.num 7)]
    [("rating", JsVal.str "five")]
  exact ⟨h.1 hnot, h.2.1 hdef hnot, (h.2.2 hsame).1⟩

/-- C3. A string `reviewText` of more than 500 code units makes `validateRatingData` and
`validateRatingUpdateData` invalid with 'Review text cannot exceed 500 characters', whatever
the other fields hold. -/
theorem long_review_rejected (dateParse : JsVal → Option Int) (data : JsObject) (s : String)
    (hs : data.get "reviewText" = JsVal.str s) (hlen : 500 < jsLength s) :
    (validateRatingData dateParse data).isValid = false ∧
    "Review text cannot exceed 500 characters" ∈ (validateRatingData dateParse data).errors ∧
    (validateRatingUpdateData dateParse data).isValid = false ∧
    "Review text cannot exceed 500 characters" ∈
      (validateRatingUpdateData dateParse data).errors := by
  have hne : s ≠ "" := by
    rintro rfl
    simp [jsLength] at hlen
  have hc : (JsVal.str s).truthy = true ∧ (JsVal.str s).lengthGt 500 = true ∧
      (JsVal.str s).isDefined = true ∧ ((JsVal.str s).typeof != "string") = false := by
    simp [JsVal.truthy, JsVal.lengthGt, JsVal.isDefined, JsVal.typeof, hne, hlen]
  obtain ⟨h1, h2, h3, h4⟩ := hc
  have hm : "Review text cannot exceed 500 characters" ∈
      (validateRatingData dateParse data).errors := by
    simp only [validateRatingData, hs]
    split_ifs <;> simp [mem_push, h1, h2]
  have hu : "Review text cannot exceed 500 characters" ∈
      (validateRatingUpdateData dateParse data).errors := by
    simp only [validateRatingUpdateData, hs, h3, h4, if_true, Bool.false_eq_true, if_false]
    split_ifs <;> simp [mem_push, h2]
  exact ⟨push_ne_nil_of_mem hm, hm, push_ne_nil_of_mem hu, hu⟩

theorem long_review_rejected_witness :
    (validateRatingData (fun _ => none) [("userFirebaseUid", JsVal.str "u1"),
      ("barberFirebaseUid", JsVal.str "b1"), ("rating", JsVal.num 5),
      ("reviewText", JsVal.str longReview)]).isValid = false ∧
    (validateRatingUpdateData (fun _ => none) [("userFirebaseUid", JsVal.str "u1"),
      ("barberFirebaseUid", JsVal.str "b1"), ("rating", JsVal.num 5),
      ("reviewText", JsVal.str longReview)]).isValid = false := by
  have hlen : 500 < jsLength longReview := by
    show 500 < (List.map _ (List.replicate 501 'a')).sum
    rw [List.map_replicate, List.sum_replicate]
    decide
  have h := long_review_rejected (fun _ => none) [("userFirebaseUid", JsVal.str "u1"),
      ("barberFirebaseUid", JsVal.str "b1"), ("rating", JsVal.num 5),
      ("reviewText", JsVal.str longReview)]
    longReview (by simp [JsObject.get, List.lookup]) hlen
  exact ⟨h.1, h.2.2.1⟩

/-- C4. With `rating`, `reviewText` and `serviceDetails` all `undefined`,
`validateRatingUpdateData` is invalid and reports the 'At least one field' error, whatever
else the payload holds. -/
theorem update_without_fields_rejected (dateParse : JsVal → Option Int) (data : JsObject)
    (hr : data.get "rating" = JsVal.undefined) (ht : data.get "reviewText" = JsVal.undefined)
    (hd : data.get "serviceDetails" = JsVal.undefined) :
    (validateRatingUpdateData dateParse data).isValid = false ∧
    "At least one field (rating, reviewText, or serviceDetails) must be provided for update" ∈
      (validateRatingUpdateData dateParse data).errors := by
  have hm : "At least one field (rating, reviewText, or serviceDetails) must be provided for update" ∈
      (validateRatingUpdateData dateParse data).errors := by
    simp [validateRatingUpdateData, hr, ht, hd, JsVal.truthy, JsVal.isDefined, push]
  exact ⟨push_ne_nil_of_mem hm, hm⟩

theorem update_without_fields_rejected_witness :
    (validateRatingUpdateData (fun _ => none)
      [("barberFirebaseUid", JsVal.str "b1"), ("note", JsVal.num 3)]).isValid = false ∧
    "At least one field (rating, reviewText, or serviceDetails) must be provided for update" ∈
      (validateRatingUpdateData (fun _ => none)
        [("barberFirebaseUid", JsVal.str "b1"), ("note", JsVal.num 3)]).errors :=
  update_without_fields_rejected (fun _ => none)
    [("barberFirebaseUid", JsVal.str "b1"), ("note", JsVal.num 3)]
    (by simp [JsObject.get, List.lookup]) (by simp [JsObject.get, List.lookup])
    (by simp [JsObject.get, List.lookup])

/-- C5. The code at the failing input: a payload whose only field is `reviewText = ""` (the
field is present) is rejected by `validateRatingUpdateData` with exactly the 'At least one
field' error, and so is `serviceDetails = null`; the test reads truthiness, not presence. -/
theorem update_empty_review_rejected (dateParse : JsVal → Option Int) :
    JsObject.get [("reviewText", JsVal.str "")] "reviewText" ≠ JsVal.undefined ∧
    validateRatingUpdateData dateParse [("reviewText", JsVal.str "")] =
      { isValid := false,
        errors := ["At least one field (rating, reviewText, or serviceDetails) must be provided for update"] } ∧
    validateRatingUpdateData dateParse [("serviceDetails", JsVal.null)] =
      { isValid := false,
        errors := ["At least one field (rating, reviewText, or serviceDetails) must be provided for update"] } := by
  refine ⟨?_, ?_, ?_⟩
  · simp [JsObject.get, List.lookup]
  · simp [validateRatingUpdateData, JsObject.get, List.lookup, JsVal.truthy, JsVal.isDefined,
      JsVal.typeof, JsVal.lengthGt, jsLength, push]
  · simp [validateRatingUpdateData, JsObject.get, List.lookup, JsVal.truthy, JsVal.isDefined,
      JsVal.typeof, JsVal.lengthGt, jsLength, push]

/-- C6. The code at the failing input: with `reviewText = 0` (present, not a string)
`validateRatingData` reports nothing and the payload is valid, while the sibling
`validateRatingUpdateData` does report 'Review text must be a string'; `createRating` then
runs `reviewText?.trim()` on the number, which throws, and the call is answered 500 with
nothing stored. `reviewText = false` goes the same way. -/
theorem falsy_review_text_accepted (dateParse : JsVal → Option Int) :
    validateRatingData dateParse [("userFirebaseUid", JsVal.str "u1"),
        ("barberFirebaseUid", JsVal.str "b1"), ("rating", JsVal.num 5),
        ("reviewText", JsVal.num 0)] = { isValid := true, errors := [] } ∧
    validateRatingData dateParse [("userFirebaseUid", JsVal.str "u1"),
        ("barberFirebaseUid", JsVal.str "b1"), ("rating", JsVal.num 5),
        ("reviewText", JsVal.bool false)] = { isValid := true, errors := [] } ∧
    validateRatingUpdateData dateParse [("rating", JsVal.num 5),
        ("reviewText", JsVal.num 0)] =
      { isValid := false, errors := ["Review text must be a string"] } ∧
    (createRating dateParse 7 freshWorld "u1" (JsVal.obj [("barberFirebaseUid", JsVal.str "b1"),
        ("rating", JsVal.num 5), ("reviewText", JsVal.num 0)])).1 =
      Reply.failure 500 "Internal server error while creating rating" [] ∧
    (createRating dateParse 7 freshWorld "u1" (JsVal.obj [("barberFirebaseUid", JsVal.str "b1"),
        ("rating", JsVal.num 5), ("reviewText", JsVal.num 0)])).2.ratings.length = 0 :=
  ⟨rfl, rfl, rfl, rfl, rfl⟩

theorem typeof_scalar {v : JsVal} (h : IsScalar v) : (v.typeof != "object") = true := by
  rcases h with ⟨q, rfl⟩ | rfl | ⟨n, rfl⟩ | ⟨b, rfl⟩ | ⟨s, rfl⟩ <;> rfl

/-- C7, as the code has it. A `serviceDetails` that is a truthy scalar (a number other than
0 and `NaN`, `true`, a string that is not empty) makes `validateRatingData` and
`validateRatingUpdateData` invalid with 'Service details must be an object'; a falsy
scalar (0, `NaN`, `false`, `""`) is no service details to `validateRatingData`, which
reports no such error on it, as `createRating` stores `null` in its place; and on a scalar
neither validator reports any of the three sub-field errors. -/
theorem scalar_service_details (dateParse : JsVal → Option Int) (data : JsObject)
    (hs : IsScalar (data.get "serviceDetails")) :
    ((data.get "serviceDetails").truthy = true →
      (validateRatingData dateParse data).isValid = false ∧
      "Service details must be an object" ∈ (validateRatingData dateParse data).errors ∧
      (validateRatingUpdateData dateParse data).isValid = false ∧
      "Service details must be an object" ∈
        (validateRatingUpdateData dateParse data).errors) ∧
    ((data.get "serviceDetails").truthy = false →
      "Service details must be an object" ∉ (validateRatingData dateParse data).errors ∧
      orNull (data.get "serviceDetails") = JsVal.null) ∧
    (∀ e, e ∈ (validateRatingData dateParse data).errors ∨
        e ∈ (validateRatingUpdateData dateParse data).errors →
      e ≠ "Service name must be a string" ∧ e ≠ "Service date must be a valid date" ∧
      e ≠ "Service price must be a positive number") := by
  have ht := typeof_scalar hs
  refine ⟨?_, ?_, ?_⟩
  · intro htr
    have hm : "Service details must be an object" ∈ (validateRatingData dateParse data).errors := by
      simp [validateRatingData, htr, ht]
    have hu : "Service details must be an object" ∈
        (validateRatingUpdateData dateParse data).errors := by
      simp [validateRatingUpdateData, htr, ht]
    exact ⟨push_ne_nil_of_mem hm, hm, push_ne_nil_of_mem hu, hu⟩
  · intro hf
    constructor
    · simp only [validateRatingData, hf, Bool.false_eq_true, if_false]
      simp [mem_push]
    · simp [orNull, hf]
  · intro e he
    rcases he with he | he
    · simp only [validateRatingData, ht, if_true] at he
      split_ifs at he <;>
        simp only [mem_push, List.mem_append, List.mem_singleton, List.not_mem_nil,
          false_or] at he <;>
        (repeat' rcases he with he | he) <;>
        first
          | decide
          | (obtain ⟨-, rfl⟩ := he; decide)
    · simp only [validateRatingUpdateData, ht, if_true] at he
      split_ifs at he <;>
        simp only [mem_push, List.mem_append, List.mem_singleton, List.not_mem_nil,
          false_or] at he <;>
        (repeat' rcases he with he | he) <;>
        first
          | decide
          | (obtain ⟨-, rfl⟩ := he; decide)

theorem scalar_service_details_witness :
    (validateRatingData (fun _ => none) [("rating", JsVal.num 5),
      ("serviceDetails", JsVal.str "haircut")]).isValid = false ∧
    "Service details must be an object" ∈
      (validateRatingUpdateData (fun _ => none) [("rating", JsVal.num 5),
        ("serviceDetails", JsVal.str "haircut")]).errors := by
  have h := scalar_service_details (fun _ => none) [("rating", JsVal.num 5),
      ("serviceDetails", JsVal.str "haircut")]
    (Or.inr (Or.inr (Or.inr (Or.inr ⟨"haircut", rfl⟩))))
  exact ⟨(h.1 rfl).1, (h.1 rfl).2.2.2⟩

/-- C7 fails as stated: `serviceDetails = 0` is present and a scalar, yet
`validateRatingData` finds the payload valid, and so it does for `false` and for the empty
string; `createRating` then answers 201 and stores `null` as the service details. -/
theorem scalar_service_details_counterexample :
    IsScalar (JsObject.get [("userFirebaseUid", JsVal.str "u1"),
      ("barberFirebaseUid", JsVal.str "b1"), ("rating", JsVal.num 5),
      ("serviceDetails", JsVal.num 0)] "serviceDetails") ∧
    validateRatingData (fun _ => none) [("userFirebaseUid", JsVal.str "u1"),
      ("barberFirebaseUid", JsVal.str "b1"), ("rating", JsVal.num 5),
      ("serviceDetails", JsVal.num 0)] = { isValid := true, errors := [] } ∧
    validateRatingData (fun _ => none) [("userFirebaseUid", JsVal.str "u1"),
      ("barberFirebaseUid", JsVal.str "b1"), ("rating", JsVal.num 5),
      ("serviceDetails", JsVal.bool false)] = { isValid := true, errors := [] } ∧
    validateRatingData (fun _ => none) [("userFirebaseUid", JsVal.str "u1"),
      ("barberFirebaseUid", JsVal.str "b1"), ("rating", JsVal.num 5),
      ("serviceDetails", JsVal.str "")] = { isValid := true, errors := [] } ∧
    (createRating (fun _ => none) 1 freshWorld "u1" (JsVal.obj [
      ("barberFirebaseUid", JsVal.str "b1"), ("rating", JsVal.num 5),
      ("serviceDetails", JsVal.num 0)])).1.isSuccess = true ∧
    (createRating (fun _ => none) 1 freshWorld "u1" (JsVal.obj [
      ("barberFirebaseUid", JsVal.str "b1"), ("rating", JsVal.num 5),
      ("serviceDetails", JsVal.num 0)])).2.ratings.map (fun r => r.serviceDetails) =
      [JsVal.null] :=
  ⟨Or.inl ⟨0, rfl⟩, rfl, rfl, rfl, rfl, rfl⟩

/-! ## Theorems on the list controllers -/

/-- What the `$match`/`$group` pipeline feeds the statistics: the scores of all ratings
of the barber. -/
theorem aggregate_stats (barber : String) (ratings : List Rating) :
    (match aggregate barber ratings with
      | [] => 0
      | stats :: _ => stats.totalCount) =
      (ratings.filter (fun r => r.barberFirebaseUid == barber)).length ∧
    (match aggregate barber ratings with
      | [] => (0 : ℚ)
      | stats :: _ => stats.averageRating) =
      (if (ratings.filter (fun r => r.barberFirebaseUid == barber)).length = 0 then 0
        else ((ratings.filter (fun r => r.barberFirebaseUid == barber)).map
            (fun r => r.rating)).sum /
          ((ratings.filter (fun r => r.barberFirebaseUid == barber)).length : ℚ)) ∧
    (match aggregate barber ratings with
      | [] => Distribution.zero
      | stats :: _ => stats.ratingDistribution.foldl Distribution.bump Distribution.zero) =
      ((ratings.filter (fun r => r.barberFirebaseUid == barber)).map
        (fun r => r.rating)).foldl Distribution.bump Distribution.zero := by
  unfold aggregate
  cases hm : ratings.filter (fun r => r.barberFirebaseUid == barber) with
  | nil => simp
  | cons a t => simp

/-- C1, as the code has it. The statistics of a successful `getBarberRatings` are computed
over all ratings of the barber, whatever `minRating` and `maxRating` are: the count, the
mean (0 when there is none) and the histogram of those ratings, the same for any two
accepted queries on one store; `pagination.totalRatings` counts the ratings matching the
filter, and equals `statistics.totalRatings` when neither bound is supplied. -/
theorem statistics_over_subject (w : World) (barber : String) (query query' : JsVal)
    (status status' : Nat) (msg msg' : String) (data data' : BarberRatings)
    (h : getBarberRatings w barber query = Reply.success status msg data)
    (h' : getBarberRatings w barber query' = Reply.success status' msg' data') :
    data.statistics.totalRatings =
      (w.ratings.filter (fun r => r.barberFirebaseUid == barber)).length ∧
    data.statistics.averageRating =
      (if (w.ratings.filter (fun r => r.barberFirebaseUid == barber)).length = 0 then 0
        else ((w.ratings.filter (fun r => r.barberFirebaseUid == barber)).map
            (fun r => r.rating)).sum /
          ((w.ratings.filter (fun r => r.barberFirebaseUid == barber)).length : ℚ)) ∧
    data.statistics.ratingDistribution =
      ((w.ratings.filter (fun r => r.barberFirebaseUid == barber)).map
        (fun r => r.rating)).foldl Distribution.bump Distribution.zero ∧
    data'.statistics = data.statistics ∧
    data.pagination.totalRatings =
      (w.ratings.filter (matchesQuery barber (query.get "minRating")
        (query.get "maxRating"))).length ∧
    ((query.get "minRating").truthy = false → (query.get "maxRating").truthy = false →
      data.statistics.totalRatings = data.pagination.totalRatings) := by
  obtain ⟨P, L, -, -, -, -, -, -, hpag, havg, htot, hdist⟩ := getBarberRatings_success h
  obtain ⟨P', L', -, -, -, -, -, -, -, havg', htot', hdist'⟩ := getBarberRatings_success h'
  obtain ⟨atot, aavg, adist⟩ := aggregate_stats barber w.ratings
  have hcount : data.pagination.totalRatings =
      (w.ratings.filter (matchesQuery barber (query.get "minRating")
        (query.get "maxRating"))).length := by
    rw [hpag]; rfl
  refine ⟨htot.trans atot, havg.trans aavg, hdist.trans adist, ?_, hcount, ?_⟩
  · cases hs : data.statistics
    cases hs' : data'.statistics
    rw [hs] at havg htot hdist
    rw [hs'] at havg' htot' hdist'
    simp only at havg htot hdist havg' htot' hdist'
    rw [havg, htot, hdist, havg', htot', hdist']
  · intro hmin hmax
    rw [htot.trans atot, hcount]
    congr 1
    apply List.filter_congr
    intro r _
    simp [matchesQuery, hmin, hmax]

theorem statistics_over_subject_witness :
    ∃ data, getBarberRatings threeRatings "b1" (JsVal.obj [("page", JsVal.str "2"),
        ("limit", JsVal.str "2")]) = Reply.success 200 "Ratings retrieved successfully" data ∧
      data.statistics.totalRatings = 3 ∧ data.pagination.totalRatings = 3 := by
  refine ⟨_, rfl, ?_⟩
  have h := statistics_over_subject threeRatings "b1"
    (JsVal.obj [("page", JsVal.str "2"), ("limit", JsVal.str "2")])
    (JsVal.obj [("minRating", JsVal.str "4")]) 200 200 "Ratings retrieved successfully"
    "Ratings retrieved successfully" _ _ rfl rfl
  exact ⟨h.1.trans (by decide), (h.2.2.2.2.2 rfl rfl).symm.trans (h.1.trans (by decide))⟩

/-- C1 fails as stated: with `minRating=4` and one of the barber's three ratings at 4 or
more, the filter matches one rating and `pagination.totalRatings` is 1, yet
`statistics.totalRatings` is 3 and the mean is that of all three scores. -/
theorem statistics_over_filter_counterexample :
    ∃ data, getBarberRatings threeRatings "b1" (JsVal.obj [("minRating", JsVal.str "4")]) =
        Reply.success 200 "Ratings retrieved successfully" data ∧
      (threeRatings.ratings.filter
        (matchesQuery "b1" (JsVal.str "4") JsVal.undefined)).length = 1 ∧
      data.ratings.length = 1 ∧
      data.pagination.totalRatings = 1 ∧
      data.statistics.totalRatings = 3 ∧
      data.statistics.totalRatings ≠ data.pagination.totalRatings := by
  refine ⟨_, rfl, ?_, ?_, ?_, ?_, ?_⟩ <;> decide

/-- C8. For a total `T`, a limit `L` in [1,100] and a page `P ≥ 1` the pagination block has
`currentPage = P`, `totalRatings = T`, `totalPages = ⌈T / L⌉` (the least count of pages of
`L` that hold `T` ratings), `hasNextPage` exactly when `P < totalPages` and `hasPrevPage`
exactly when `P > 1`; a successful `getBarberRatings` or `getUserRatings` whose page and
limit parse to `P` and `L` and whose filter matches `T` ratings returns that block and the
`L` ratings at offset `(P - 1) * L` of the sorted matches. -/
theorem pagination_block (P L : Int) (T : Nat) (_hP : 1 ≤ P) (hL : 1 ≤ L) (_hL : L ≤ 100) :
    ((pagination P L T).currentPage = P ∧
      (pagination P L T).totalRatings = T ∧
      (pagination P L T).totalPages = ⌈(T : ℚ) / (L : ℚ)⌉ ∧
      (T : Int) ≤ (pagination P L T).totalPages * L ∧
      ((pagination P L T).totalPages - 1) * L < T ∧
      ((pagination P L T).hasNextPage = true ↔ P < (pagination P L T).totalPages) ∧
      ((pagination P L T).hasPrevPage = true ↔ P > 1)) ∧
    (∀ (w : World) (barber : String) (query : JsVal) (status : Nat) (msg : String)
        (data : BarberRatings),
      getBarberRatings w barber query = Reply.success status msg data →
      parseInt (withDefault (query.get "page") (JsVal.num 1)) = some P →
      parseInt (withDefault (query.get "limit") (JsVal.num 10)) = some L →
      (w.ratings.filter (matchesQuery barber (query.get "minRating")
        (query.get "maxRating"))).length = T →
      data.pagination = pagination P L T ∧
      data.ratings =
        ((sortRatings (withDefault (query.get "sortBy") (JsVal.str "createdAt"))
          (if (withDefault (query.get "sortOrder") (JsVal.str "desc")).isString "asc"
            then 1 else -1)
          (w.ratings.filter (matchesQuery barber (query.get "minRating")
            (query.get "maxRating")))).drop ((P - 1) * L).toNat).take L.toNat) ∧
    (∀ (w : World) (uid : String) (query : JsVal) (status : Nat) (msg : String)
        (data : UserRatings),
      getUserRatings w uid query = Reply.success status msg data →
      parseInt (withDefault (query.get "page") (JsVal.num 1)) = some P →
      parseInt (withDefault (query.get "limit") (JsVal.num 10)) = some L →
      (w.ratings.filter (fun r => r.userFirebaseUid == uid)).length = T →
      data.pagination = pagination P L T ∧
      data.ratings =
        ((sortRatings (withDefault (query.get "sortBy") (JsVal.str "createdAt"))
          (if (withDefault (query.get "sortOrder") (JsVal.str "desc")).isString "asc"
            then 1 else -1)
          (w.ratings.filter (fun r => r.userFirebaseUid == uid))).drop
            ((P - 1) * L).toNat).take L.toNat) := by
  have hLq : (0 : ℚ) < (L : ℚ) := by exact_mod_cast (by omega : (0 : Int) < L)
  have hceil1 : (T : Int) ≤ ⌈(T : ℚ) / (L : ℚ)⌉ * L := by
    have h1 : (T : ℚ) / (L : ℚ) ≤ (⌈(T : ℚ) / (L : ℚ)⌉ : ℚ) := Int.le_ceil _
    have h2 : (T : ℚ) ≤ (⌈(T : ℚ) / (L : ℚ)⌉ : ℚ) * (L : ℚ) := (div_le_iff₀ hLq).mp h1
    exact_mod_cast h2
  have hceil2 : (⌈(T : ℚ) / (L : ℚ)⌉ - 1) * L < T := by
    have h1 : (⌈(T : ℚ) / (L : ℚ)⌉ : ℚ) < (T : ℚ) / (L : ℚ) + 1 := Int.ceil_lt_add_one _
    have h2 : (⌈(T : ℚ) / (L : ℚ)⌉ : ℚ) - 1 < (T : ℚ) / (L : ℚ) := by linarith
    have h3 : ((⌈(T : ℚ) / (L : ℚ)⌉ : ℚ) - 1) * (L : ℚ) < (T : ℚ) := (lt_div_iff₀ hLq).mp h2
    exact_mod_cast h3
  refine ⟨⟨rfl, rfl, rfl, hceil1, hceil2, ?_, ?_⟩, ?_, ?_⟩
  · simp [pagination]
  · simp [pagination]
  · intro w barber query status msg data h hp hl hT
    obtain ⟨P', L', hp', hl', -, -, -, hr, hpag, -⟩ := getBarberRatings_success h
    rw [hp] at hp'
    rw [hl] at hl'
    injection hp' with hp'
    injection hl' with hl'
    subst hp' hl' hT
    exact ⟨hpag, hr⟩
  · intro w uid query status msg data h hp hl hT
    obtain ⟨P', L', hp', hl', -, -, -, hr, hpag⟩ := getUserRatings_success h
    rw [hp] at hp'
    rw [hl] at hl'
    injection hp' with hp'
    injection hl' with hl'
    subst hp' hl' hT
    exact ⟨hpag, hr⟩

theorem pagination_block_witness :
    (pagination 2 2 3).totalPages = 2 ∧ (pagination 2 2 3).hasNextPage = false ∧
    (pagination 2 2 3).hasPrevPage = true ∧
    (∀ data, getBarberRatings threeRatings "b1" (JsVal.obj [("page", JsVal.str "2"),
        ("limit", JsVal.str "2")]) = Reply.success 200 "Ratings retrieved successfully" data →
      data.pagination = pagination 2 2 3) := by
  have h := pagination_block 2 2 3 (by decide) (by decide) (by decide)
  obtain ⟨⟨-, -, -, h1, h2, hn, hp⟩, hb, -⟩ := h
  have htp : (pagination 2 2 3).totalPages = 2 := by omega
  refine ⟨htp, ?_, ?_, ?_⟩
  · cases hnext : (pagination 2 2 3).hasNextPage
    · rfl
    · have := hn.mp hnext
      omega
  · exact hp.mpr (by decide)
  · intro data hd
    exact (hb threeRatings "b1" _ 200 _ data hd (by decide) (by decide) (by decide)).1

/-! ## Theorems on `createRating` -/

/-- C9, as the code has it. On a store with at most one rating per pair, a `createRating`
call that passes validation and both existence checks, whose `reviewText` is a string,
`null` or `undefined`, and whose `serviceDetails` (`null` in the place of a falsy one) the
schema's cast accepts, answers 201 and leaves exactly one rating for the submitted pair:
it carries the submitted score, the trimmed review text (`null` when that is empty or the
text is absent) and the service details as the cast leaves them; the ratings of every
other pair are unchanged and the store still has one rating per pair. -/
theorem create_upserts_one (dateParse : JsVal → Option Int) (now : Nat) (w : World)
    (uid : String) (body : JsVal) (stored : JsVal) (hu : UniqueKeys w.ratings)
    (hc : PassesChecks dateParse w uid body)
    (ht : (∃ s, body.get "reviewText" = JsVal.str s) ∨ body.get "reviewText" = JsVal.null ∨
      body.get "reviewText" = JsVal.undefined)
    (hcast : w.castServiceDetails (if (body.get "serviceDetails").truthy then
      body.get "serviceDetails" else JsVal.null) = some stored) :
    ∃ (barber : String) (score : ℤ) (doc : Rating),
      body.get "barberFirebaseUid" = JsVal.str barber ∧
      body.get "rating" = JsVal.num score ∧
      (createRating dateParse now w uid body).1 =
        Reply.success 201 "Rating created successfully" doc ∧
      (createRating dateParse now w uid body).2.ratings.filter
        (fun r => r.hasKey uid barber) = [doc] ∧
      doc.rating = score ∧
      (∀ s, body.get "reviewText" = JsVal.str s →
        doc.reviewText = if jsTrim s = "" then none else some (jsTrim s)) ∧
      (body.get "reviewText" = JsVal.null ∨ body.get "reviewText" = JsVal.undefined →
        doc.reviewText = none) ∧
      doc.serviceDetails = stored ∧
      (createRating dateParse now w uid body).2.ratings.filter
          (fun r => !r.hasKey uid barber) =
        w.ratings.filter (fun r => !r.hasKey uid barber) ∧
      UniqueKeys (createRating dateParse now w uid body).2.ratings := by
  have htrim : ∃ text, trimOrNull (body.get "reviewText") = some text ∧
      (∀ s, body.get "reviewText" = JsVal.str s →
        text = if jsTrim s = "" then none else some (jsTrim s)) ∧
      (body.get "reviewText" = JsVal.null ∨ body.get "reviewText" = JsVal.undefined →
        text = none) := by
    rcases ht with ⟨s, hs⟩ | hn | hn
    · refine ⟨_, by rw [hs]; rfl, ?_, ?_⟩
      · intro s' hs'
        rw [hs] at hs'
        injection hs' with hs'
        subst hs'
        rfl
      · rintro (h | h) <;> rw [hs] at h <;> cases h
    · refine ⟨none, by rw [hn]; rfl, ?_, fun _ => rfl⟩
      intro s hs
      rw [hn] at hs
      cases hs
    · refine ⟨none, by rw [hn]; rfl, ?_, fun _ => rfl⟩
      intro s hs
      rw [hn] at hs
      cases hs
  obtain ⟨text, htext, hstr, hnull⟩ := htrim
  obtain ⟨barber, score, -, -, hbar, hscore, hrun⟩ :=
    createRating_accepted dateParse now w uid body text stored hc htext hcast
  obtain ⟨-, -, wr, wt, wd, -⟩ := upsert_written now uid barber score text stored w.ratings
  refine ⟨barber, score, _, hbar, hscore, by rw [hrun], ?_, wr, ?_, ?_, wd, ?_, ?_⟩
  · rw [hrun]
    exact upsert_single now uid barber score text _ w.ratings hu
  · intro s hs
    rw [wt]
    exact hstr s hs
  · intro hn
    rw [wt]
    exact hnull hn
  · rw [hrun]
    exact upsert_frame now uid barber score text _ w.ratings
  · rw [hrun]
    exact upsert_unique now uid barber score text _ w.ratings hu

/-- Score 3 and then score 5 for one pair, the second with service details that name a
key the schema does not have: one record, with score 5 and the details as cast. -/
theorem create_upserts_one_witness :
    ∃ doc, (createRating (fun _ => none) 2
        (createRating (fun _ => none) 1 freshWorld "u1"
          (JsVal.obj [("barberFirebaseUid", JsVal.str "b1"), ("rating", JsVal.num 3)])).2 "u1"
        (JsVal.obj [("barberFirebaseUid", JsVal.str "b1"), ("rating", JsVal.num 5),
          ("serviceDetails", JsVal.obj [("serviceName", JsVal.str "cut"),
            ("tip", JsVal.num 5)])])).2.ratings.filter
          (fun r => r.hasKey "u1" "b1") = [doc] ∧
      doc.rating = 5 ∧
      doc.serviceDetails = JsVal.obj [("serviceName", JsVal.str "cut")] := by
  obtain ⟨barber, score, doc, hbar, hscore, -, hone, hr, -, -, hd, -⟩ :=
    create_upserts_one (fun _ => none) 2
      (createRating (fun _ => none) 1 freshWorld "u1"
        (JsVal.obj [("barberFirebaseUid", JsVal.str "b1"), ("rating", JsVal.num 3)])).2 "u1"
      (JsVal.obj [("barberFirebaseUid", JsVal.str "b1"), ("rating", JsVal.num 5),
        ("serviceDetails", JsVal.obj [("serviceName", JsVal.str "cut"),
          ("tip", JsVal.num 5)])])
      (JsVal.obj [("serviceName", JsVal.str "cut")])
      (List.pairwise_singleton _ _) ⟨rfl, rfl, rfl⟩ (Or.inr (Or.inr rfl)) rfl
  have hb : JsVal.str "b1" = JsVal.str barber := hbar
  have hs : JsVal.num 5 = JsVal.num score := hscore
  injection hb with hb
  injection hs with hs
  subst hb
  exact ⟨doc, hone, by rw [hr, ← hs], hd⟩

/-- C9 fails as stated. With `serviceDetails = 0` the call passes the checks and the stored
rating carries `null`, not the submitted value; with service details that name a key the
schema does not have, the stored details are without it. And two calls that pass the checks
store nothing: with `reviewText = false`, `trim` throws; with a `serviceDate` of `false`
the cast of the store throws; both are answered 500. -/
theorem create_upserts_one_counterexample :
    (UniqueKeys freshWorld.ratings ∧
      PassesChecks (fun _ => none) freshWorld "u1" (JsVal.obj [
        ("barberFirebaseUid", JsVal.str "b1"), ("rating", JsVal.num 5),
        ("serviceDetails", JsVal.num 0)]) ∧
      ((createRating (fun _ => none) 1 freshWorld "u1" (JsVal.obj [
        ("barberFirebaseUid", JsVal.str "b1"), ("rating", JsVal.num 5),
        ("serviceDetails", JsVal.num 0)])).2.ratings.map (fun r => r.serviceDetails)) =
        [JsVal.null]) ∧
    (PassesChecks (fun _ => none) freshWorld "u1" (JsVal.obj [
        ("barberFirebaseUid", JsVal.str "b1"), ("rating", JsVal.num 5),
        ("serviceDetails", JsVal.obj [("serviceName", JsVal.str "cut"),
          ("tip", JsVal.num 5)])]) ∧
      ((createRating (fun _ => none) 1 freshWorld "u1" (JsVal.obj [
        ("barberFirebaseUid", JsVal.str "b1"), ("rating", JsVal.num 5),
        ("serviceDetails", JsVal.obj [("serviceName", JsVal.str "cut"),
          ("tip", JsVal.num 5)])])).2.ratings.map (fun r => r.serviceDetails)) =
        [JsVal.obj [("serviceName", JsVal.str "cut")]]) ∧
    (PassesChecks (fun _ => none) freshWorld "u1" (JsVal.obj [
        ("barberFirebaseUid", JsVal.str "b1"), ("rating", JsVal.num 5),
        ("reviewText", JsVal.bool false)]) ∧
      (createRating (fun _ => none) 1 freshWorld "u1" (JsVal.obj [
        ("barberFirebaseUid", JsVal.str "b1"), ("rating", JsVal.num 5),
        ("reviewText", JsVal.bool false)])).1 =
        Reply.failure 500 "Internal server error while creating rating" [] ∧
      ((createRating (fun _ => none) 1 freshWorld "u1" (JsVal.obj [
        ("barberFirebaseUid", JsVal.str "b1"), ("rating", JsVal.num 5),
        ("reviewText", JsVal.bool false)])).2.ratings.filter
          (fun r => r.hasKey "u1" "b1")).length = 0) ∧
    (PassesChecks (fun _ => none) freshWorld "u1" (JsVal.obj [
        ("barberFirebaseUid", JsVal.str "b1"), ("rating", JsVal.num 5),
        ("serviceDetails", JsVal.obj [("serviceDate", JsVal.bool false)])]) ∧
      (createRating (fun _ => none) 1 freshWorld "u1" (JsVal.obj [
        ("barberFirebaseUid", JsVal.str "b1"), ("rating", JsVal.num 5),
        ("serviceDetails", JsVal.obj [("serviceDate", JsVal.bool false)])])).1 =
        Reply.failure 500 "Internal server error while creating rating" [] ∧
      ((createRating (fun _ => none) 1 freshWorld "u1" (JsVal.obj [
        ("barberFirebaseUid", JsVal.str "b1"), ("rating", JsVal.num 5),
        ("serviceDetails", JsVal.obj [("serviceDate", JsVal.bool false)])])).2.ratings.filter
          (fun r => r.hasKey "u1" "b1")).length = 0) :=
  ⟨⟨List.Pairwise.nil, ⟨rfl, rfl, rfl⟩, rfl⟩, ⟨⟨rfl, rfl, rfl⟩, rfl⟩,
    ⟨⟨rfl, rfl, rfl⟩, rfl, rfl⟩, ⟨rfl, rfl, rfl⟩, rfl, rfl⟩

/-- C10. `createRating` is idempotent on identical input: applied a second time to the
store the first call leaves, it leaves the same ratings up to `updatedAt`, on every store
and every input; when the input is valid (the first call is accepted) the second call is
accepted too, and on a store with one rating per pair each call leaves exactly one rating
for the submitted pair. -/
theorem create_twice (dateParse : JsVal → Option Int) (now now' : Nat) (w : World)
    (uid : String) (body : JsVal) :
    (createRating dateParse now' (createRating dateParse now w uid body).2 uid
        body).2.ratings.map (fun r => { r with updatedAt := 0 }) =
      (createRating dateParse now w uid body).2.ratings.map
        (fun r => { r with updatedAt := 0 }) ∧
    ((createRating dateParse now w uid body).1.isSuccess = true → UniqueKeys w.ratings →
      (createRating dateParse now' (createRating dateParse now w uid body).2 uid
        body).1.isSuccess = true ∧
      ∃ barber, body.get "barberFirebaseUid" = JsVal.str barber ∧
        ((createRating dateParse now w uid body).2.ratings.filter
          (fun r => r.hasKey uid barber)).length = 1 ∧
        ((createRating dateParse now' (createRating dateParse now w uid body).2 uid
          body).2.ratings.filter (fun r => r.hasKey uid barber)).length = 1) := by
  rcases createRating_cases dateParse now w uid body with
    ⟨hsame, hfail⟩ | ⟨hc, text, stored, ht, hcast⟩
  · constructor
    · rw [hsame]
      rcases createRating_cases dateParse now' w uid body with
        ⟨hsame', -⟩ | ⟨hc, text, stored, ht, hcast⟩
      · rw [hsame']
      · obtain ⟨barber, score, -, -, -, -, hrun⟩ :=
          createRating_accepted dateParse now w uid body text stored hc ht hcast
        rw [hrun] at hfail
        cases hfail
    · intro hok
      rw [hfail] at hok
      cases hok
  · obtain ⟨barber, score, -, -, hbar, hscore, hrun⟩ :=
      createRating_accepted dateParse now w uid body text stored hc ht hcast
    have hc' : PassesChecks dateParse (createRating dateParse now w uid body).2 uid body := by
      rw [hrun]
      exact hc
    have hcast' : (createRating dateParse now w uid body).2.castServiceDetails
        (orNull (body.get "serviceDetails")) = some stored := by
      rw [hrun]
      exact hcast
    obtain ⟨barber', score', -, -, hbar', hscore', hrun'⟩ :=
      createRating_accepted dateParse now' (createRating dateParse now w uid body).2 uid body
        text stored hc' ht hcast'
    rw [hbar] at hbar'
    rw [hscore] at hscore'
    injection hbar' with hbar'
    injection hscore' with hscore'
    have hscore'' : score = score' := by exact_mod_cast hscore'
    subst hbar' hscore''
    constructor
    · rw [hrun', hrun]
      exact upsert_twice now now' uid barber score text _ w.ratings
    · intro _ hu
      refine ⟨by rw [hrun']; rfl, barber, hbar, ?_, ?_⟩
      · rw [hrun]
        simp only
        rw [upsert_single now uid barber score text _ w.ratings hu]
        rfl
      · have hu' := upsert_unique now uid barber score text stored w.ratings hu
        rw [hrun', hrun]
        simp only
        rw [upsert_single now' uid barber score text _ _ hu']
        rfl

theorem create_twice_witness :
    (createRating (fun _ => none) 2 (createRating (fun _ => none) 1 freshWorld "u1"
        (JsVal.obj [("barberFirebaseUid", JsVal.str "b1"), ("rating", JsVal.num 4),
          ("reviewText", JsVal.str " fine ")])).2 "u1"
        (JsVal.obj [("barberFirebaseUid", JsVal.str "b1"), ("rating", JsVal.num 4),
          ("reviewText", JsVal.str " fine ")])).1.isSuccess = true ∧
    ((createRating (fun _ => none) 2 (createRating (fun _ => none) 1 freshWorld "u1"
        (JsVal.obj [("barberFirebaseUid", JsVal.str "b1"), ("rating", JsVal.num 4),
          ("reviewText", JsVal.str " fine ")])).2 "u1"
        (JsVal.obj [("barberFirebaseUid", JsVal.str "b1"), ("rating", JsVal.num 4),
          ("reviewText", JsVal.str " fine ")])).2.ratings.filter
            (fun r => r.hasKey "u1" "b1")).length = 1 := by
  obtain ⟨-, h⟩ := create_twice (fun _ => none) 1 2 freshWorld "u1"
    (JsVal.obj [("barberFirebaseUid", JsVal.str "b1"), ("rating", JsVal.num 4),
      ("reviewText", JsVal.str " fine ")])
  obtain ⟨hok, barber, hbar, -, hone⟩ := h rfl List.Pairwise.nil
  have hb : JsVal.str "b1" = JsVal.str barber := hbar
  injection hb with hb
  subst hb
  exact ⟨hok, hone⟩

/-! ## Theorems on update and delete -/

/-- C11. On a store with no rating for the pair, `updateRating` leaves the collections as
they were and answers a failure, for every body: 400 'Validation failed' with the errors of
`validateRatingUpdateData`, or else 404 'Rating not found' (a body that is `undefined` or
`null` is no payload and is answered 500). Update never creates a record. -/
theorem update_never_creates (dateParse : JsVal → Option Int) (now : Nat) (w : World)
    (uid barber : String) (body : JsVal)
    (hno : ∀ r ∈ w.ratings, r.hasKey uid barber = false) :
    (updateRating dateParse now w uid barber body).2 = w ∧
    (updateRating dateParse now w uid barber body).1.isSuccess = false ∧
    (body.isNullish = false →
      ((validateRatingUpdateData dateParse [("rating", body.get "rating"),
          ("reviewText", body.get "reviewText"),
          ("serviceDetails", body.get "serviceDetails")]).isValid = false ∧
        (updateRating dateParse now w uid barber body).1 =
          Reply.failure 400 "Validation failed"
            (validateRatingUpdateData dateParse [("rating", body.get "rating"),
              ("reviewText", body.get "reviewText"),
              ("serviceDetails", body.get "serviceDetails")]).errors) ∨
      ((validateRatingUpdateData dateParse [("rating", body.get "rating"),
          ("reviewText", body.get "reviewText"),
          ("serviceDetails", body.get "serviceDetails")]).isValid = true ∧
        (updateRating dateParse now w uid barber body).1 =
          Reply.failure 404 "Rating not found" [])) := by
  have hf := findOne_eq_none hno
  cases hb : body.isNullish
  · cases hv : (validateRatingUpdateData dateParse [("rating", body.get "rating"),
        ("reviewText", body.get "reviewText"),
        ("serviceDetails", body.get "serviceDetails")]).isValid
    · have hrun : updateRating dateParse now w uid barber body =
          (Reply.failure 400 "Validation failed"
            (validateRatingUpdateData dateParse [("rating", body.get "rating"),
              ("reviewText", body.get "reviewText"),
              ("serviceDetails", body.get "serviceDetails")]).errors, w) := by
        unfold updateRating
        simp only [hb, hv, Bool.not_false, Bool.false_eq_true, if_false, if_true]
      rw [hrun]
      exact ⟨rfl, rfl, fun _ => Or.inl ⟨rfl, rfl⟩⟩
    · have hrun : updateRating dateParse now w uid barber body =
          (Reply.failure 404 "Rating not found" [], w) := by
        unfold updateRating
        simp only [hb, hv, hf, Bool.not_true, Bool.false_eq_true, if_false]
      rw [hrun]
      exact ⟨rfl, rfl, fun _ => Or.inr ⟨rfl, rfl⟩⟩
  · have hrun : updateRating dateParse now w uid barber body =
        (Reply.failure 500 "Internal server error while updating rating" [], w) := by
      unfold updateRating
      simp only [hb, if_true]
    rw [hrun]
    exact ⟨rfl, rfl, fun h => by cases h⟩

theorem update_never_creates_witness :
    (updateRating (fun _ => none) 5 freshWorld "u1" "b1"
      (JsVal.obj [("rating", JsVal.num 4)])).2 = freshWorld ∧
    (updateRating (fun _ => none) 5 freshWorld "u1" "b1"
      (JsVal.obj [("rating", JsVal.num 4)])).1.isSuccess = false :=
  ⟨(update_never_creates (fun _ => none) 5 freshWorld "u1" "b1"
      (JsVal.obj [("rating", JsVal.num 4)]) (fun r hr => by cases hr)).1,
    (update_never_creates (fun _ => none) 5 freshWorld "u1" "b1"
      (JsVal.obj [("rating", JsVal.num 4)]) (fun r hr => by cases hr)).2.1⟩

/-- C12, as the code has it. A valid update of an existing rating whose `serviceDetails`,
when present, the schema's cast accepts, answers 200 and changes only the fields the
payload has: a field that is `undefined` keeps its stored value, a present score (an
integer in [1,5]) is stored as given, a present `serviceDetails` as the cast leaves it, a
present review text (a string) is stored trimmed, `null` when it trims to empty; the key
and `createdAt` stay, and no other rating of the store changes. -/
theorem update_writes_present_fields (dateParse : JsVal → Option Int) (now : Nat) (w : World)
    (uid barber : String) (body : JsVal) (old : Rating) (stored : JsVal)
    (hold : findOne uid barber w.ratings = some old)
    (hv : (validateRatingUpdateData dateParse [("rating", body.get "rating"),
      ("reviewText", body.get "reviewText"),
      ("serviceDetails", body.get "serviceDetails")]).isValid = true)
    (hcast : body.get "serviceDetails" ≠ JsVal.undefined →
      w.castServiceDetails (body.get "serviceDetails") = some stored) :
    ∃ doc : Rating,
      (updateRating dateParse now w uid barber body).1 =
        Reply.success 200 "Rating updated successfully" (some doc) ∧
      findOne uid barber (updateRating dateParse now w uid barber body).2.ratings = some doc ∧
      doc.userFirebaseUid = old.userFirebaseUid ∧
      doc.barberFirebaseUid = old.barberFirebaseUid ∧
      doc.createdAt = old.createdAt ∧
      (body.get "rating" = JsVal.undefined → doc.rating = old.rating) ∧
      (body.get "rating" ≠ JsVal.undefined → body.get "rating" = JsVal.num doc.rating) ∧
      (body.get "reviewText" = JsVal.undefined → doc.reviewText = old.reviewText) ∧
      (body.get "reviewText" ≠ JsVal.undefined →
        ∃ t, body.get "reviewText" = JsVal.str t ∧
          doc.reviewText = if jsTrim t = "" then none else some (jsTrim t)) ∧
      (body.get "serviceDetails" = JsVal.undefined →
        doc.serviceDetails = old.serviceDetails) ∧
      (body.get "serviceDetails" ≠ JsVal.undefined → doc.serviceDetails = stored) ∧
      (updateRating dateParse now w uid barber body).2.ratings.filter
          (fun r => !r.hasKey uid barber) =
        w.ratings.filter (fun r => !r.hasKey uid barber) ∧
      (updateRating dateParse now w uid barber body).2.ratings.length = w.ratings.length := by
  obtain ⟨hr, ht, -⟩ := validateRatingUpdateData_valid hv
  have hr' : (body.get "rating").isDefined = true →
      ∃ n : ℤ, 1 ≤ n ∧ n ≤ 5 ∧ body.get "rating" = JsVal.num n := hr
  have ht' : (body.get "reviewText").isDefined = true →
      ∃ t, body.get "reviewText" = JsVal.str t := ht
  have hscore : ∃ score : Option ℚ,
      (if (body.get "rating").isDefined then (scoreOf (body.get "rating")).map some
        else some none) = some score ∧
      (body.get "rating" = JsVal.undefined → score = none) ∧
      (body.get "rating" ≠ JsVal.undefined →
        ∃ q, score = some q ∧ body.get "rating" = JsVal.num q) := by
    cases hd : (body.get "rating").isDefined
    · refine ⟨none, by simp, fun _ => rfl, fun hne => ?_⟩
      exfalso
      apply hne
      cases hx : body.get "rating" <;> rw [hx] at hd <;> first | rfl | cases hd
    · obtain ⟨n, -, -, hn⟩ := hr' hd
      refine ⟨some (n : ℚ), by simp [hn, scoreOf], fun hu => ?_, fun _ => ⟨_, rfl, hn⟩⟩
      rw [hn] at hu
      cases hu
  have htext : ∃ text : Option (Option String),
      (if (body.get "reviewText").isDefined then
        (trimOrNull (body.get "reviewText")).map some else some none) = some text ∧
      (body.get "reviewText" = JsVal.undefined → text = none) ∧
      (body.get "reviewText" ≠ JsVal.undefined →
        ∃ t, body.get "reviewText" = JsVal.str t ∧
          text = some (if jsTrim t = "" then none else some (jsTrim t))) := by
    cases hd : (body.get "reviewText").isDefined
    · refine ⟨none, by simp, fun _ => rfl, fun hne => ?_⟩
      exfalso
      apply hne
      cases hx : body.get "reviewText" <;> rw [hx] at hd <;> first | rfl | cases hd
    · obtain ⟨t, htx⟩ := ht' hd
      refine ⟨some (if jsTrim t = "" then none else some (jsTrim t)),
        by simp [htx, trimOrNull], fun hu => ?_, fun _ => ⟨t, htx, rfl⟩⟩
      rw [htx] at hu
      cases hu
  have hdetails : ∃ details : Option JsVal,
      (if (body.get "serviceDetails").isDefined then
        (w.castServiceDetails (body.get "serviceDetails")).map some else some none) =
        some details ∧
      (body.get "serviceDetails" = JsVal.undefined → details = none) ∧
      (body.get "serviceDetails" ≠ JsVal.undefined → details = some stored) := by
    cases hd : (body.get "serviceDetails").isDefined
    · refine ⟨none, by simp, fun _ => rfl, fun hne => ?_⟩
      exfalso
      apply hne
      cases hx : body.get "serviceDetails" <;> rw [hx] at hd <;> first | rfl | cases hd
    · have hne : body.get "serviceDetails" ≠ JsVal.undefined := (isDefined_iff _).mp hd
      refine ⟨some stored, by simp [hcast hne], fun hu => absurd hu hne, fun _ => rfl⟩
  obtain ⟨score, hs, hsu, hsd⟩ := hscore
  obtain ⟨text, htx, htu, htd⟩ := htext
  obtain ⟨details, hdx, hdu, hdd⟩ := hdetails
  have hrun := updateRating_accepted dateParse now w uid barber body old score text details
    hold hv hs htx hdx
  obtain ⟨f1, f2, f3, f4⟩ := findOneAndUpdate_found uid barber
    { rating := score, reviewText := text, serviceDetails := details,
      updatedAt := now } w.ratings old hold
  rw [hrun]
  refine ⟨_, by rw [f1], f2, rfl, rfl, rfl, ?_, ?_, ?_, ?_, ?_, ?_, f3, f4⟩
  · intro hu
    simp [Rating.write, hsu hu]
  · intro hne
    obtain ⟨q, hq, hnum⟩ := hsd hne
    simp [Rating.write, hq, hnum]
  · intro hu
    simp [Rating.write, htu hu]
  · intro hne
    obtain ⟨t, htx', htt⟩ := htd hne
    exact ⟨t, htx', by simp [Rating.write, htt]⟩
  · intro hu
    simp [Rating.write, hdu hu]
  · intro hne
    simp [Rating.write, hdd hne]

/-- A review text and service details written over the rating of `u2`: the score and
`createdAt` stay, the text is trimmed, the details lose the key the schema does not
have. -/
theorem update_writes_present_fields_witness :
    ∃ doc : Rating,
      findOne "u2" "b1" (updateRating (fun _ => none) 9 threeRatings "u2" "b1"
        (JsVal.obj [("reviewText", JsVal.str "  good  "),
          ("serviceDetails", JsVal.obj [("serviceName", JsVal.str "cut"),
            ("tip", JsVal.num 5)])])).2.ratings = some doc ∧
      doc.rating = 3 ∧ doc.reviewText = some "good" ∧ doc.createdAt = 2 ∧
      doc.serviceDetails = JsVal.obj [("serviceName", JsVal.str "cut")] := by
  obtain ⟨doc, -, hfind, -, -, hc, hr, -, -, ht, -, hd, -⟩ :=
    update_writes_present_fields (fun _ => none) 9 threeRatings "u2" "b1"
      (JsVal.obj [("reviewText", JsVal.str "  good  "),
        ("serviceDetails", JsVal.obj [("serviceName", JsVal.str "cut"),
          ("tip", JsVal.num 5)])])
      (sampleRating "u2" "b1" 3 2) (JsVal.obj [("serviceName", JsVal.str "cut")])
      rfl rfl (fun _ => rfl)
  obtain ⟨t, htx, hdoc⟩ := ht (by intro h; cases h)
  have ht' : JsVal.str "  good  " = JsVal.str t := htx
  injection ht' with ht'
  subst ht'
  exact ⟨doc, hfind, hr rfl, by rw [hdoc]; decide, hc, hd (by intro h; cases h)⟩

/-- C12 fails as stated. On the rating of `u2`, service details that name a key the schema
does not have are a valid payload and are stored without that key, not as given. And a
valid payload whose `serviceDate` is `false` is not written at all: the cast of the store
throws, the call is answered 500 and the store stays as it was. -/
theorem update_writes_present_fields_counterexample :
    ((validateRatingUpdateData (fun _ => none) [("rating", JsVal.undefined),
        ("reviewText", JsVal.undefined),
        ("serviceDetails", JsVal.obj [("serviceName", JsVal.str "cut"),
          ("tip", JsVal.num 5)])]).isValid = true ∧
      (findOne "u2" "b1" (updateRating (fun _ => none) 9 threeRatings "u2" "b1"
        (JsVal.obj [("serviceDetails", JsVal.obj [("serviceName", JsVal.str "cut"),
          ("tip", JsVal.num 5)])])).2.ratings).map (fun r => r.serviceDetails) =
        some (JsVal.obj [("serviceName", JsVal.str "cut")])) ∧
    ((validateRatingUpdateData (fun _ => none) [("rating", JsVal.undefined),
        ("reviewText", JsVal.undefined),
        ("serviceDetails", JsVal.obj [("serviceDate", JsVal.bool false)])]).isValid =
        true ∧
      (findOne "u2" "b1" threeRatings.ratings).isSome = true ∧
      (updateRating (fun _ => none) 9 threeRatings "u2" "b1"
        (JsVal.obj [("serviceDetails", JsVal.obj [("serviceDate", JsVal.bool false)])])).1 =
        Reply.failure 500 "Internal server error while updating rating" [] ∧
      (updateRating (fun _ => none) 9 threeRatings "u2" "b1"
        (JsVal.obj [("serviceDetails",
          JsVal.obj [("serviceDate", JsVal.bool false)])])).2.ratings.map
            (fun r => r.updatedAt) =
        threeRatings.ratings.map (fun r => r.updatedAt)) :=
  ⟨⟨rfl, rfl⟩, rfl, rfl, rfl, rfl⟩

/-- C13. `createRating` on a decoded body checks before it writes: a payload that fails
validation is answered 400 with the full error list, a valid one whose barber does not
exist 404 'Barber not found', a valid one whose barber exists and whose user does not 404
'User not found', each with the collections left as they were; the ratings change only
when all three checks have passed. -/
theorem create_checks_first (dateParse : JsVal → Option Int) (now : Nat) (w : World)
    (uid : String) (body : JsVal) (hbody : body.isNullish = false) :
    ((validateRatingData dateParse [("userFirebaseUid", JsVal.str uid),
        ("barberFirebaseUid", body.get "barberFirebaseUid"), ("rating", body.get "rating"),
        ("reviewText", body.get "reviewText"),
        ("serviceDetails", body.get "serviceDetails")]).isValid = false →
      createRating dateParse now w uid body =
        (Reply.failure 400 "Validation failed"
          (validateRatingData dateParse [("userFirebaseUid", JsVal.str uid),
            ("barberFirebaseUid", body.get "barberFirebaseUid"),
            ("rating", body.get "rating"), ("reviewText", body.get "reviewText"),
            ("serviceDetails", body.get "serviceDetails")]).errors, w)) ∧
    ((validateRatingData dateParse [("userFirebaseUid", JsVal.str uid),
        ("barberFirebaseUid", body.get "barberFirebaseUid"), ("rating", body.get "rating"),
        ("reviewText", body.get "reviewText"),
        ("serviceDetails", body.get "serviceDetails")]).isValid = true →
      barberExists w (body.get "barberFirebaseUid") = false →
      createRating dateParse now w uid body =
        (Reply.failure 404 "Barber not found" [], w)) ∧
    ((validateRatingData dateParse [("userFirebaseUid", JsVal.str uid),
        ("barberFirebaseUid", body.get "barberFirebaseUid"), ("rating", body.get "rating"),
        ("reviewText", body.get "reviewText"),
        ("serviceDetails", body.get "serviceDetails")]).isValid = true →
      barberExists w (body.get "barberFirebaseUid") = true →
      w.users.contains uid = false →
      createRating dateParse now w uid body =
        (Reply.failure 404 "User not found" [], w)) ∧
    ((createRating dateParse now w uid body).2.ratings ≠ w.ratings →
      PassesChecks dateParse w uid body) := by
  refine ⟨?_, ?_, ?_, ?_⟩
  · intro hv
    unfold createRating
    simp only [hbody, hv, Bool.not_false, Bool.false_eq_true, if_false, if_true]
  · intro hv hb
    unfold createRating
    simp only [hbody, hv, hb, Bool.not_true, Bool.not_false, Bool.false_eq_true, if_false,
      if_true]
  · intro hv hb hu
    unfold createRating
    simp only [hbody, hv, hb, hu, Bool.not_true, Bool.not_false, Bool.false_eq_true,
      if_false, if_true]
  · intro hne
    rcases createRating_cases dateParse now w uid body with ⟨hsame, -⟩ | ⟨hc, -⟩
    · rw [hsame] at hne
      exact absurd rfl hne
    · exact hc

theorem create_checks_first_witness :
    createRating (fun _ => none) 3 freshWorld "u1"
        (JsVal.obj [("barberFirebaseUid", JsVal.str "nobody"), ("rating", JsVal.num 5)]) =
      (Reply.failure 404 "Barber not found" [], freshWorld) ∧
    createRating (fun _ => none) 3 freshWorld "u1"
        (JsVal.obj [("barberFirebaseUid", JsVal.str "b1"), ("rating", JsVal.num 9)]) =
      (Reply.failure 400 "Validation failed" ["Rating must be an integer between 1 and 5"],
        freshWorld) :=
  ⟨(create_checks_first (fun _ => none) 3 freshWorld "u1"
      (JsVal.obj [("barberFirebaseUid", JsVal.str "nobody"), ("rating", JsVal.num 5)])
      rfl).2.1 rfl rfl,
    (create_checks_first (fun _ => none) 3 freshWorld "u1"
      (JsVal.obj [("barberFirebaseUid", JsVal.str "b1"), ("rating", JsVal.num 9)])
      rfl).1 rfl⟩

/-- C14. When a rating of the exact pair exists, `deleteRating` answers 200 with that
rating, removes it from the store and leaves every other rating as it was (under the
unique index no rating of the pair is left); when none exists it answers 404 'Rating not
found' and the store is unchanged. -/
theorem delete_removes_exact (w : World) (uid barber : String) :
    (∀ old, findOne uid barber w.ratings = some old →
      (deleteRating w uid barber).1 = Reply.success 200 "Rating deleted successfully" old ∧
      (deleteRating w uid barber).2.ratings =
        w.ratings.eraseP (fun r => r.hasKey uid barber) ∧
      (deleteRating w uid barber).2.ratings.filter (fun r => !r.hasKey uid barber) =
        w.ratings.filter (fun r => !r.hasKey uid barber) ∧
      (deleteRating w uid barber).2.ratings.length + 1 = w.ratings.length ∧
      (UniqueKeys w.ratings → findOne uid barber (deleteRating w uid barber).2.ratings = none) ∧
      (deleteRating w uid barber).2.barbers = w.barbers ∧
      (deleteRating w uid barber).2.users = w.users) ∧
    (findOne uid barber w.ratings = none →
      deleteRating w uid barber = (Reply.failure 404 "Rating not found" [], w)) := by
  obtain ⟨h2, h1, hfr⟩ := findOneAndDelete_spec uid barber w.ratings
  constructor
  · intro old hold
    have hrun : deleteRating w uid barber =
        (Reply.success 200 "Rating deleted successfully" old,
          { w with ratings := (findOneAndDelete uid barber w.ratings).1 }) := by
      unfold deleteRating
      rw [h2, hold]
    rw [hrun]
    refine ⟨rfl, h1, hfr, ?_, ?_, rfl, rfl⟩
    · simp only [h1]
      unfold findOne at hold
      have hmem := List.mem_of_find?_eq_some hold
      have hp := List.find?_some hold
      rw [List.length_eraseP_of_mem hmem hp]
      have : 0 < w.ratings.length := List.length_pos_of_mem hmem
      omega
    · intro hu
      exact findOneAndDelete_none_left uid barber w.ratings hu
  · intro hnone
    unfold deleteRating
    rw [h2, hnone]

theorem delete_removes_exact_witness :
    (deleteRating threeRatings "u2" "b1").1 =
      Reply.success 200 "Rating deleted successfully" (sampleRating "u2" "b1" 3 2) ∧
    (deleteRating threeRatings "u2" "b1").2.ratings.length + 1 = 3 ∧
    deleteRating freshWorld "u1" "b1" = (Reply.failure 404 "Rating not found" [], freshWorld) :=
  ⟨((delete_removes_exact threeRatings "u2" "b1").1 _ rfl).1,
    ((delete_removes_exact threeRatings "u2" "b1").1 _ rfl).2.2.2.1,
    (delete_removes_exact freshWorld "u1" "b1").2 rfl⟩

/-! ## Theorems on the histogram and the sort order -/

/-- C15. On a store whose scores are all integers in [1,5], the `ratingDistribution` of a
successful `getBarberRatings` has the five buckets and no other key, each bucket is the
number of the barber's ratings with that score, and the five buckets add up to
`statistics.totalRatings`. -/
theorem distribution_counts (w : World) (barber : String) (query : JsVal) (status : Nat)
    (msg : String) (data : BarberRatings)
    (h : getBarberRatings w barber query = Reply.success status msg data)
    (hs : ∀ r ∈ w.ratings, ∃ n : ℤ, 1 ≤ n ∧ n ≤ 5 ∧ r.rating = n) :
    data.statistics.ratingDistribution.stray = [] ∧
    data.statistics.ratingDistribution.one =
      (w.ratings.filter (fun r => r.barberFirebaseUid == barber && decide (r.rating = 1))).length ∧
    data.statistics.ratingDistribution.two =
      (w.ratings.filter (fun r => r.barberFirebaseUid == barber && decide (r.rating = 2))).length ∧
    data.statistics.ratingDistribution.three =
      (w.ratings.filter (fun r => r.barberFirebaseUid == barber && decide (r.rating = 3))).length ∧
    data.statistics.ratingDistribution.four =
      (w.ratings.filter (fun r => r.barberFirebaseUid == barber && decide (r.rating = 4))).length ∧
    data.statistics.ratingDistribution.five =
      (w.ratings.filter (fun r => r.barberFirebaseUid == barber && decide (r.rating = 5))).length ∧
    data.statistics.ratingDistribution.one + data.statistics.ratingDistribution.two +
      data.statistics.ratingDistribution.three + data.statistics.ratingDistribution.four +
      data.statistics.ratingDistribution.five = data.statistics.totalRatings := by
  obtain ⟨P, L, -, -, -, -, -, -, -, -, htot, hdist⟩ := getBarberRatings_success h
  obtain ⟨atot, -, adist⟩ := aggregate_stats barber w.ratings
  have hscores : ∀ q : ℚ, q ∈ (w.ratings.filter (fun r => r.barberFirebaseUid == barber)).map
      (fun r => r.rating) → ∃ n : ℤ, 1 ≤ n ∧ n ≤ 5 ∧ q = n := by
    intro q hq
    rw [List.mem_map] at hq
    obtain ⟨r, hr, rfl⟩ := hq
    exact hs r (List.mem_of_mem_filter hr)
  obtain ⟨c1, c2, c3, c4, c5, c6, c7⟩ := foldl_bump_scores _ Distribution.zero hscores
  have hcount : ∀ k : ℚ,
      (((w.ratings.filter (fun r => r.barberFirebaseUid == barber)).map
        (fun r => r.rating)).filter (fun q => decide (q = k))).length =
      (w.ratings.filter
        (fun r => r.barberFirebaseUid == barber && decide (r.rating = k))).length := by
    intro k
    rw [List.filter_map, List.length_map, List.filter_filter]
    congr 1
    apply List.filter_congr
    intro r _
    simp [Bool.and_comm]
  rw [hdist.trans adist, htot.trans atot]
  simp only [Distribution.zero, Nat.zero_add, hcount, List.length_map] at c1 c2 c3 c4 c5 c6 c7
  exact ⟨c6, c1, c2, c3, c4, c5, c7⟩

theorem distribution_counts_witness :
    ∃ data, getBarberRatings threeRatings "b1" (JsVal.obj []) =
        Reply.success 200 "Ratings retrieved successfully" data ∧
      data.statistics.ratingDistribution.stray = [] ∧
      data.statistics.ratingDistribution.five = 1 ∧
      data.statistics.ratingDistribution.four = 0 := by
  refine ⟨_, rfl, ?_⟩
  have hs : ∀ r ∈ threeRatings.ratings, ∃ n : ℤ, 1 ≤ n ∧ n ≤ 5 ∧ r.rating = n := by
    intro r hr
    simp only [threeRatings, List.mem_cons, List.mem_singleton, List.not_mem_nil,
      or_false] at hr
    rcases hr with rfl | rfl | rfl
    · exact ⟨5, by decide, by decide, by simp [sampleRating]⟩
    · exact ⟨3, by decide, by decide, by simp [sampleRating]⟩
    · exact ⟨2, by decide, by decide, by simp [sampleRating]⟩
  have h := distribution_counts threeRatings "b1" (JsVal.obj []) 200
    "Ratings retrieved successfully" _ rfl hs
  exact ⟨h.1, h.2.2.2.2.2.1.trans (by decide), h.2.2.2.2.1.trans (by decide)⟩

/-- C16. The code at the failing input: `sortOrder = 'ASC'` passes `validateRatingQuery`
(it lowers to `asc`), and `getBarberRatings` and `getUserRatings` then sort descending,
because the controllers compare `sortOrder === 'asc'` without lowering; `'asc'` itself
sorts ascending. -/
theorem upper_case_asc_sorts_descending :
    jsToLowerCase "ASC" = "asc" ∧
    validateRatingQuery [("page", JsVal.num 1), ("limit", JsVal.num 10),
      ("minRating", JsVal.undefined), ("maxRating", JsVal.undefined),
      ("sortBy", JsVal.str "rating"), ("sortOrder", JsVal.str "ASC")] =
      some { isValid := true, errors := [] } ∧
    (∃ data, getBarberRatings threeRatings "b1"
        (JsVal.obj [("sortBy", JsVal.str "rating"), ("sortOrder", JsVal.str "ASC")]) =
        Reply.success 200 "Ratings retrieved successfully" data ∧
      data.ratings.map (fun r => r.rating) = [5, 3, 2]) ∧
    (∃ data, getBarberRatings threeRatings "b1"
        (JsVal.obj [("sortBy", JsVal.str "rating"), ("sortOrder", JsVal.str "asc")]) =
        Reply.success 200 "Ratings retrieved successfully" data ∧
      data.ratings.map (fun r => r.rating) = [2, 3, 5]) ∧
    (∃ data, getUserRatings
        { threeRatings with ratings := [sampleRating "u1" "b1" 2 1, sampleRating "u1" "b2" 4 2] }
        "u1" (JsVal.obj [("sortBy", JsVal.str "rating"), ("sortOrder", JsVal.str "Asc")]) =
        Reply.success 200 "User ratings retrieved successfully" data ∧
      data.ratings.map (fun r => r.rating) = [4, 2]) := by
  refine ⟨by decide, by decide, ⟨_, rfl, by decide⟩, ⟨_, rfl, by decide⟩, ⟨_, rfl, by decide⟩⟩

/-! ## Theorems relating the two payload validators -/

/-- On a present score the two score tests agree. -/
theorem ratingCheck_eq_updateCheck {v : JsVal} (h : v ≠ JsVal.undefined) :
    (v.isDefined && (!v.numberIsInteger || v.ltNum 1 || v.gtNum 5)) =
      (!v.truthy || !v.numberIsInteger || v.ltNum 1 || v.gtNum 5) := by
  cases v <;> simp [JsVal.isDefined, JsVal.truthy, JsVal.numberIsInteger, JsVal.ltNum,
    JsVal.gtNum] at h ⊢
  case num q =>
    by_cases hq : q = 0
    · subst hq
      simp
    · simp [hq]

/-- C17, as the code has it. For a payload in which `rating`, `reviewText` and
`serviceDetails` are all present and at least one is truthy, and whose `reviewText` is a
string, or a truthy value whose `length`, read as a number, is not above 500,
`validateRatingUpdateData` returns the error list `validateRatingData` returns for the same
three values with valid ids. -/
theorem field_checks_agree (dateParse : JsVal → Option Int) (data : JsObject)
    (user barber : String) (hu : user ≠ "") (hb : barber ≠ "")
    (hr : data.get "rating" ≠ JsVal.undefined)
    (_ht : data.get "reviewText" ≠ JsVal.undefined)
    (_hs : data.get "serviceDetails" ≠ JsVal.undefined)
    (htruthy : (data.get "rating").truthy = true ∨ (data.get "reviewText").truthy = true ∨
      (data.get "serviceDetails").truthy = true)
    (htext : (∃ s, data.get "reviewText" = JsVal.str s) ∨
      ((data.get "reviewText").truthy = true ∧
        (data.get "reviewText").lengthGt 500 = false)) :
    (validateRatingUpdateData dateParse data).errors =
      (validateRatingData dateParse [("userFirebaseUid", JsVal.str user),
        ("barberFirebaseUid", JsVal.str barber), ("rating", data.get "rating"),
        ("reviewText", data.get "reviewText"),
        ("serviceDetails", data.get "serviceDetails")]).errors := by
  have e1 : JsObject.get [("userFirebaseUid", JsVal.str user),
      ("barberFirebaseUid", JsVal.str barber), ("rating", data.get "rating"),
      ("reviewText", data.get "reviewText"), ("serviceDetails", data.get "serviceDetails")]
      "userFirebaseUid" = JsVal.str user := rfl
  have e2 : JsObject.get [("userFirebaseUid", JsVal.str user),
      ("barberFirebaseUid", JsVal.str barber), ("rating", data.get "rating"),
      ("reviewText", data.get "reviewText"), ("serviceDetails", data.get "serviceDetails")]
      "barberFirebaseUid" = JsVal.str barber := rfl
  have e3 : JsObject.get [("userFirebaseUid", JsVal.str user),
      ("barberFirebaseUid", JsVal.str barber), ("rating", data.get "rating"),
      ("reviewText", data.get "reviewText"), ("serviceDetails", data.get "serviceDetails")]
      "rating" = data.get "rating" := rfl
  have e4 : JsObject.get [("userFirebaseUid", JsVal.str user),
      ("barberFirebaseUid", JsVal.str barber), ("rating", data.get "rating"),
      ("reviewText", data.get "reviewText"), ("serviceDetails", data.get "serviceDetails")]
      "reviewText" = data.get "reviewText" := rfl
  have e5 : JsObject.get [("userFirebaseUid", JsVal.str user),
      ("barberFirebaseUid", JsVal.str barber), ("rating", data.get "rating"),
      ("reviewText", data.get "reviewText"), ("serviceDetails", data.get "serviceDetails")]
      "serviceDetails" = data.get "serviceDetails" := rfl
  have hcu : (!(JsVal.str user).truthy || (JsVal.str user).typeof != "string") = false := by
    simp [JsVal.truthy, JsVal.typeof, hu]
  have hcb : (!(JsVal.str barber).truthy || (JsVal.str barber).typeof != "string") = false := by
    simp [JsVal.truthy, JsVal.typeof, hb]
  have hnone : (!(data.get "rating").truthy && !(data.get "reviewText").truthy &&
      !(data.get "serviceDetails").truthy) = false := by
    rcases htruthy with h | h | h <;> simp [h]
  have hdef : (data.get "reviewText").isDefined = true := by
    rcases htext with ⟨s, hs⟩ | ⟨h, -⟩
    · rw [hs]; rfl
    · cases hx : data.get "reviewText" <;> rw [hx] at h <;> first | rfl | cases h
  have hprefix : ∀ errors : List String,
      (if (data.get "reviewText").typeof != "string" then
          errors ++ ["Review text must be a string"]
        else push errors ((data.get "reviewText").lengthGt 500)
          "Review text cannot exceed 500 characters") =
      push (push errors ((data.get "reviewText").truthy &&
          (data.get "reviewText").typeof != "string") "Review text must be a string")
        ((data.get "reviewText").truthy && (data.get "reviewText").lengthGt 500)
        "Review text cannot exceed 500 characters" := by
    intro errors
    rcases htext with ⟨s, hs⟩ | ⟨h, hl⟩
    · rw [hs]
      by_cases he : s = ""
      · subst he
        simp [push, JsVal.typeof, JsVal.truthy, JsVal.lengthGt, jsLength]
      · simp [push, JsVal.typeof, JsVal.truthy, he]
    · by_cases hty : ((data.get "reviewText").typeof != "string") = true
      · simp [push, h, hl, hty]
      · simp only [Bool.not_eq_true] at hty
        simp [push, h, hl, hty]
  simp only [validateRatingUpdateData, validateRatingData, e1, e2, e3, e4, e5, hcu, hcb,
    hnone, hdef, if_true, ratingCheck_eq_updateCheck hr, hprefix]
  simp only [push, Bool.false_eq_true, if_false]

theorem field_checks_agree_witness :
    (validateRatingUpdateData (fun _ => none) [("rating", JsVal.num 7),
        ("reviewText", JsVal.str "ok"), ("serviceDetails", JsVal.str "x")]).errors =
      (validateRatingData (fun _ => none) [("userFirebaseUid", JsVal.str "u1"),
        ("barberFirebaseUid", JsVal.str "b1"), ("rating", JsVal.num 7),
        ("reviewText", JsVal.str "ok"), ("serviceDetails", JsVal.str "x")]).errors ∧
    (validateRatingUpdateData (fun _ => none) [("rating", JsVal.num 7),
        ("reviewText", JsVal.str "ok"), ("serviceDetails", JsVal.str "x")]).errors =
      ["Rating must be an integer between 1 and 5", "Service details must be an object"] := by
  have hr : JsObject.get [("rating", JsVal.num 7), ("reviewText", JsVal.str "ok"),
      ("serviceDetails", JsVal.str "x")] "rating" ≠ JsVal.undefined := by
    intro h
    have h' : JsVal.num 7 = JsVal.undefined := h
    cases h'
  have ht : JsObject.get [("rating", JsVal.num 7), ("reviewText", JsVal.str "ok"),
      ("serviceDetails", JsVal.str "x")] "reviewText" ≠ JsVal.undefined := by
    intro h
    have h' : JsVal.str "ok" = JsVal.undefined := h
    cases h'
  have hs : JsObject.get [("rating", JsVal.num 7), ("reviewText", JsVal.str "ok"),
      ("serviceDetails", JsVal.str "x")] "serviceDetails" ≠ JsVal.undefined := by
    intro h
    have h' : JsVal.str "x" = JsVal.undefined := h
    cases h'
  exact ⟨field_checks_agree (fun _ => none) [("rating", JsVal.num 7),
      ("reviewText", JsVal.str "ok"), ("serviceDetails", JsVal.str "x")] "u1" "b1"
      (by decide) (by decide) hr ht hs (Or.inr (Or.inl rfl)) (Or.inl ⟨"ok", rfl⟩), rfl⟩

/-- C17 fails as stated. With all three fields present and the score truthy, a `reviewText`
of `null` draws 'Review text must be a string' from `validateRatingUpdateData` and nothing
from `validateRatingData`; an object with a `length` of 600, or of the text "600", which
`>` reads as a number, draws one error from the former and two from the latter. -/
theorem field_checks_agree_counterexample :
    validateRatingUpdateData (fun _ => none) [("rating", JsVal.num 5),
        ("reviewText", JsVal.null), ("serviceDetails", JsVal.obj [])] =
      { isValid := false, errors := ["Review text must be a string"] } ∧
    validateRatingData (fun _ => none) [("userFirebaseUid", JsVal.str "u1"),
        ("barberFirebaseUid", JsVal.str "b1"), ("rating", JsVal.num 5),
        ("reviewText", JsVal.null), ("serviceDetails", JsVal.obj [])] =
      { isValid := true, errors := [] } ∧
    (validateRatingUpdateData (fun _ => none) [("rating", JsVal.num 5),
        ("reviewText", JsVal.obj [("length", JsVal.num 600)]),
        ("serviceDetails", JsVal.obj [])]).errors = ["Review text must be a string"] ∧
    (validateRatingData (fun _ => none) [("userFirebaseUid", JsVal.str "u1"),
        ("barberFirebaseUid", JsVal.str "b1"), ("rating", JsVal.num 5),
        ("reviewText", JsVal.obj [("length", JsVal.num 600)]),
        ("serviceDetails", JsVal.obj [])]).errors =
      ["Review text must be a string", "Review text cannot exceed 500 characters"] ∧
    (validateRatingUpdateData (fun _ => none) [("rating", JsVal.num 5),
        ("reviewText", JsVal.obj [("length", JsVal.str "600")]),
        ("serviceDetails", JsVal.obj [])]).errors = ["Review text must be a string"] ∧
    (validateRatingData (fun _ => none) [("userFirebaseUid", JsVal.str "u1"),
        ("barberFirebaseUid", JsVal.str "b1"), ("rating", JsVal.num 5),
        ("reviewText", JsVal.obj [("length", JsVal.str "600")]),
        ("serviceDetails", JsVal.obj [])]).errors =
      ["Review text must be a string", "Review text cannot exceed 500 characters"] := by
  refine ⟨rfl, rfl, rfl, rfl, rfl, ?_⟩
  have g : JsObject.get [("userFirebaseUid", JsVal.str "u1"),
      ("barberFirebaseUid", JsVal.str "b1"), ("rating", JsVal.num 5),
      ("reviewText", JsVal.obj [("length", JsVal.str "600")]),
      ("serviceDetails", JsVal.obj [])] "reviewText" =
      JsVal.obj [("length", JsVal.str "600")] := rfl
  unfold validateRatingData
  simp only [g, lengthGt_text]
  rfl

/-! ## Theorems on the filter, the accepted query and the next page -/

/-- C18. In a successful `getBarberRatings` every returned rating is of the requested
barber, with a score at least `parseInt(minRating)` when `minRating` is supplied and at
most `parseInt(maxRating)` when `maxRating` is supplied; at most `limit` ratings are
returned; and `pagination.totalRatings` is the number of stored ratings that satisfy that
filter, the same for every accepted request with these bounds, whatever its page and
limit. -/
theorem page_matches_filter (w : World) (barber : String) (query : JsVal) (status : Nat)
    (msg : String) (data : BarberRatings)
    (h : getBarberRatings w barber query = Reply.success status msg data) :
    (∀ r ∈ data.ratings,
      SatisfiesFilter barber (query.get "minRating") (query.get "maxRating") r) ∧
    (∃ L : ℤ, parseInt (withDefault (query.get "limit") (JsVal.num 10)) = some L ∧
      (data.ratings.length : ℤ) ≤ L) ∧
    (∀ r, matchesQuery barber (query.get "minRating") (query.get "maxRating") r = true ↔
      SatisfiesFilter barber (query.get "minRating") (query.get "maxRating") r) ∧
    data.pagination.totalRatings =
      (w.ratings.filter (matchesQuery barber (query.get "minRating")
        (query.get "maxRating"))).length ∧
    (∀ (query' : JsVal) (status' : Nat) (msg' : String) (data' : BarberRatings),
      getBarberRatings w barber query' = Reply.success status' msg' data' →
      query'.get "minRating" = query.get "minRating" →
      query'.get "maxRating" = query.get "maxRating" →
      data'.pagination.totalRatings = data.pagination.totalRatings) := by
  obtain ⟨P, L, -, hl, -, hL1, -, hrat, hpag, -⟩ := getBarberRatings_success h
  obtain ⟨hmin, hmax⟩ := getBarberRatings_bounds h
  have hiff := fun r => @matchesQuery_iff barber (query.get "minRating")
    (query.get "maxRating") r hmin hmax
  have hcount : data.pagination.totalRatings =
      (w.ratings.filter (matchesQuery barber (query.get "minRating")
        (query.get "maxRating"))).length := by
    rw [hpag]; rfl
  refine ⟨?_, ⟨L, hl, ?_⟩, hiff, hcount, ?_⟩
  · intro r hr
    rw [hrat] at hr
    have h1 := List.mem_of_mem_drop (List.mem_of_mem_take hr)
    rw [mem_sortRatings] at h1
    exact (hiff r).mp (List.mem_filter.mp h1).2
  · rw [hrat]
    have h1 := List.length_take_le L.toNat
      (List.drop ((P - 1) * L).toNat
        (sortRatings (withDefault (query.get "sortBy") (JsVal.str "createdAt"))
          (if (withDefault (query.get "sortOrder") (JsVal.str "desc")).isString "asc"
            then 1 else -1)
          (w.ratings.filter (matchesQuery barber (query.get "minRating")
            (query.get "maxRating")))))
    have h2 : (L.toNat : ℤ) = L := Int.toNat_of_nonneg (by omega)
    omega
  · intro query' status' msg' data' h' emin emax
    obtain ⟨P', L', -, -, -, -, -, -, hpag', -⟩ := getBarberRatings_success h'
    rw [hcount, hpag', emin, emax]
    rfl

theorem page_matches_filter_witness :
    ∃ data, getBarberRatings threeRatings "b1"
        (JsVal.obj [("minRating", JsVal.str "3"), ("limit", JsVal.str "1")]) =
        Reply.success 200 "Ratings retrieved successfully" data ∧
      (∀ r ∈ data.ratings, r.barberFirebaseUid = "b1") ∧
      data.pagination.totalRatings = 2 := by
  refine ⟨_, rfl, ?_⟩
  have h := page_matches_filter threeRatings "b1"
    (JsVal.obj [("minRating", JsVal.str "3"), ("limit", JsVal.str "1")]) 200
    "Ratings retrieved successfully" _ rfl
  exact ⟨fun r hr => (h.1 r hr).1, h.2.2.2.1.trans (by decide)⟩

/-- C19. The claim fails on a page number too long for a Number: the page text "1"
followed by 309 zeros is accepted by `validateRatingQuery`, since `parseInt` gives
`Infinity`, which is neither `NaN` nor below 1; then `pageNum` is no integer, the skip
`(pageNum - 1) * limitNum` is `Infinity`, and both list controllers answer 500. The rest
of the claim holds: on every accepted request `limitNum` is an integer in [1, 100], so the
divisor is a number other than zero, and `pageNum` is an integer `≥ 1`, whose skip is a
non-negative integer, or it is `Infinity`; a request without query parameters is accepted
by both controllers (`getBarberRatings` then asks only that the barber exists). -/
theorem overflowing_page_accepted :
    (validateRatingQuery [("page", withDefault (JsVal.str overflowingPage) (JsVal.num 1)),
        ("limit", withDefault JsVal.undefined (JsVal.num 10)),
        ("sortBy", withDefault JsVal.undefined (JsVal.str "createdAt")),
        ("sortOrder", withDefault JsVal.undefined (JsVal.str "desc"))] =
        some { isValid := true, errors := [] } ∧
      parseIntNumber (JsVal.str overflowingPage) = JsVal.inf false ∧
      parseInt (JsVal.str overflowingPage) = none ∧
      (∀ (w : World) (uid : String),
        getUserRatings w uid (JsVal.obj [("page", JsVal.str overflowingPage)]) =
          Reply.failure 500 "Internal server error while fetching user ratings" []) ∧
      (∀ (w : World) (barber : String), w.barbers.contains barber = true →
        getBarberRatings w barber (JsVal.obj [("page", JsVal.str overflowingPage)]) =
          Reply.failure 500 "Internal server error while fetching ratings" [])) ∧
    (∀ (query : JsVal) (validation : Validation), validation.isValid = true →
      (validateRatingQuery [("page", withDefault (query.get "page") (JsVal.num 1)),
          ("limit", withDefault (query.get "limit") (JsVal.num 10)),
          ("minRating", query.get "minRating"), ("maxRating", query.get "maxRating"),
          ("sortBy", withDefault (query.get "sortBy") (JsVal.str "createdAt")),
          ("sortOrder", withDefault (query.get "sortOrder") (JsVal.str "desc"))] =
          some validation ∨
        validateRatingQuery [("page", withDefault (query.get "page") (JsVal.num 1)),
          ("limit", withDefault (query.get "limit") (JsVal.num 10)),
          ("sortBy", withDefault (query.get "sortBy") (JsVal.str "createdAt")),
          ("sortOrder", withDefault (query.get "sortOrder") (JsVal.str "desc"))] =
          some validation) →
      ∃ limitNum : ℤ,
        parseInt (withDefault (query.get "limit") (JsVal.num 10)) = some limitNum ∧
        1 ≤ limitNum ∧ limitNum ≤ 100 ∧ (limitNum : ℚ) ≠ 0 ∧
        ((∃ pageNum : ℤ,
            parseInt (withDefault (query.get "page") (JsVal.num 1)) = some pageNum ∧
            1 ≤ pageNum ∧ 0 ≤ (pageNum - 1) * limitNum) ∨
          parseIntNumber (withDefault (query.get "page") (JsVal.num 1)) =
            JsVal.inf false)) ∧
    (∀ (w : World) (uid : String), (getUserRatings w uid (JsVal.obj [])).isSuccess = true) ∧
    (∀ (w : World) (barber : String), w.barbers.contains barber = true →
      (getBarberRatings w barber (JsVal.obj [])).isSuccess = true) := by
  have hinf := parseIntNumber_overflowingPage
  have hnone : parseInt (JsVal.str overflowingPage) = none := by
    unfold parseInt
    rw [hinf]
    rfl
  have accepted4 : ∀ v : JsVal, v.isDefined = true → parseIntNumber v = JsVal.inf false →
      validateRatingQuery [("page", withDefault v (JsVal.num 1)),
        ("limit", withDefault JsVal.undefined (JsVal.num 10)),
        ("sortBy", withDefault JsVal.undefined (JsVal.str "createdAt")),
        ("sortOrder", withDefault JsVal.undefined (JsVal.str "desc"))] =
        some { isValid := true, errors := [] } := by
    intro v hd hv
    have hw : withDefault v (JsVal.num 1) = v := by simp [withDefault, hd]
    rw [hw]
    unfold validateRatingQuery
    have g1 : JsObject.get [("page", v),
        ("limit", withDefault JsVal.undefined (JsVal.num 10)),
        ("sortBy", withDefault JsVal.undefined (JsVal.str "createdAt")),
        ("sortOrder", withDefault JsVal.undefined (JsVal.str "desc"))] "page" = v := rfl
    simp only [g1, hd, hv]
    rfl
  have accepted6 : ∀ v : JsVal, v.isDefined = true → parseIntNumber v = JsVal.inf false →
      validateRatingQuery [("page", withDefault v (JsVal.num 1)),
        ("limit", withDefault JsVal.undefined (JsVal.num 10)),
        ("minRating", JsVal.undefined), ("maxRating", JsVal.undefined),
        ("sortBy", withDefault JsVal.undefined (JsVal.str "createdAt")),
        ("sortOrder", withDefault JsVal.undefined (JsVal.str "desc"))] =
        some { isValid := true, errors := [] } := by
    intro v hd hv
    have hw : withDefault v (JsVal.num 1) = v := by simp [withDefault, hd]
    rw [hw]
    unfold validateRatingQuery
    have g1 : JsObject.get [("page", v),
        ("limit", withDefault JsVal.undefined (JsVal.num 10)),
        ("minRating", JsVal.undefined), ("maxRating", JsVal.undefined),
        ("sortBy", withDefault JsVal.undefined (JsVal.str "createdAt")),
        ("sortOrder", withDefault JsVal.undefined (JsVal.str "desc"))] "page" = v := rfl
    simp only [g1, hd, hv]
    rfl
  have hq4 : validateRatingQuery
      [("page", withDefault (JsVal.str overflowingPage) (JsVal.num 1)),
        ("limit", withDefault JsVal.undefined (JsVal.num 10)),
        ("sortBy", withDefault JsVal.undefined (JsVal.str "createdAt")),
        ("sortOrder", withDefault JsVal.undefined (JsVal.str "desc"))] =
        some { isValid := true, errors := [] } := by
    exact accepted4 _ rfl hinf
  have hq6 : validateRatingQuery
      [("page", withDefault (JsVal.str overflowingPage) (JsVal.num 1)),
        ("limit", withDefault JsVal.undefined (JsVal.num 10)),
        ("minRating", JsVal.undefined), ("maxRating", JsVal.undefined),
        ("sortBy", withDefault JsVal.undefined (JsVal.str "createdAt")),
        ("sortOrder", withDefault JsVal.undefined (JsVal.str "desc"))] =
        some { isValid := true, errors := [] } := by
    exact accepted6 _ rfl hinf
  have key : ∀ (query : JsVal),
      ((parseIntNumber (withDefault (query.get "page") (JsVal.num 1))).isNaN ||
        (parseIntNumber (withDefault (query.get "page") (JsVal.num 1))).ltNum 1) = false →
      ((parseIntNumber (withDefault (query.get "limit") (JsVal.num 10))).isNaN ||
        (parseIntNumber (withDefault (query.get "limit") (JsVal.num 10))).ltNum 1 ||
        (parseIntNumber (withDefault (query.get "limit") (JsVal.num 10))).gtNum 100) =
        false →
      ∃ limitNum : ℤ,
        parseInt (withDefault (query.get "limit") (JsVal.num 10)) = some limitNum ∧
        1 ≤ limitNum ∧ limitNum ≤ 100 ∧ (limitNum : ℚ) ≠ 0 ∧
        ((∃ pageNum : ℤ,
            parseInt (withDefault (query.get "page") (JsVal.num 1)) = some pageNum ∧
            1 ≤ pageNum ∧ 0 ≤ (pageNum - 1) * limitNum) ∨
          parseIntNumber (withDefault (query.get "page") (JsVal.num 1)) =
            JsVal.inf false) := by
    intro query hp hl
    obtain ⟨L, hL, l1, l100⟩ :=
      @bounded_of_test (withDefault (query.get "limit") (JsVal.num 10)) 100
        (by simpa using hl)
    have hL0 : L ≠ 0 := by omega
    refine ⟨L, hL, l1, l100, by exact_mod_cast hL0, ?_⟩
    rcases page_of_test hp with ⟨P, hP, p1⟩ | hinfty
    · exact Or.inl ⟨P, hP, p1, Int.mul_nonneg (by omega) (by omega)⟩
    · exact Or.inr hinfty
  refine ⟨⟨hq4, hinf, hnone, ?_, ?_⟩, ?_, ?_, ?_⟩
  · intro w uid
    unfold getUserRatings
    have hg : (JsVal.obj [("page", JsVal.str overflowingPage)]).get "page" =
        JsVal.str overflowingPage := rfl
    have hl : (JsVal.obj [("page", JsVal.str overflowingPage)]).get "limit" =
        JsVal.undefined := rfl
    have hs : (JsVal.obj [("page", JsVal.str overflowingPage)]).get "sortBy" =
        JsVal.undefined := rfl
    have ho : (JsVal.obj [("page", JsVal.str overflowingPage)]).get "sortOrder" =
        JsVal.undefined := rfl
    simp only [hg, hl, hs, ho, hq4]
    have hp : withDefault (JsVal.str overflowingPage) (JsVal.num 1) =
        JsVal.str overflowingPage := rfl
    simp only [hp, hnone]
    rfl
  · intro w barber hb
    unfold getBarberRatings
    have hb' : barberExists w (JsVal.str barber) = true := hb
    have hg : (JsVal.obj [("page", JsVal.str overflowingPage)]).get "page" =
        JsVal.str overflowingPage := rfl
    have hl : (JsVal.obj [("page", JsVal.str overflowingPage)]).get "limit" =
        JsVal.undefined := rfl
    have hmin : (JsVal.obj [("page", JsVal.str overflowingPage)]).get "minRating" =
        JsVal.undefined := rfl
    have hmax : (JsVal.obj [("page", JsVal.str overflowingPage)]).get "maxRating" =
        JsVal.undefined := rfl
    have hs : (JsVal.obj [("page", JsVal.str overflowingPage)]).get "sortBy" =
        JsVal.undefined := rfl
    have ho : (JsVal.obj [("page", JsVal.str overflowingPage)]).get "sortOrder" =
        JsVal.undefined := rfl
    simp only [hg, hl, hmin, hmax, hs, ho, hq6, hb']
    have hp : withDefault (JsVal.str overflowingPage) (JsVal.num 1) =
        JsVal.str overflowingPage := rfl
    simp only [hp, hnone]
    rfl
  · intro query validation hv hq
    have hpd := withDefault_isDefined (query.get "page") (JsVal.num 1) rfl
    have hld := withDefault_isDefined (query.get "limit") (JsVal.num 10) rfl
    rcases hq with hq | hq
    · obtain ⟨hp, hl, -, -⟩ := validateRatingQuery_valid hq hv
      exact key query (hp hpd) (hl hld)
    · obtain ⟨hp, hl, -, -⟩ := validateRatingQuery_valid hq hv
      exact key query (hp hpd) (hl hld)
  · intro w uid
    rfl
  · intro w barber hb
    unfold getBarberRatings
    have hb' : barberExists w (JsVal.str barber) = true := hb
    have hq : validateRatingQuery [("page", withDefault ((JsVal.obj []).get "page") (JsVal.num 1)),
        ("limit", withDefault ((JsVal.obj []).get "limit") (JsVal.num 10)),
        ("minRating", (JsVal.obj []).get "minRating"),
        ("maxRating", (JsVal.obj []).get "maxRating"),
        ("sortBy", withDefault ((JsVal.obj []).get "sortBy") (JsVal.str "createdAt")),
        ("sortOrder", withDefault ((JsVal.obj []).get "sortOrder") (JsVal.str "desc"))] =
        some { isValid := true, errors := [] } := by decide
    simp only [hq, hb', Bool.not_true, Bool.false_eq_true, if_false]
    rfl

theorem overflowing_page_accepted_witness :
    ∃ limitNum : ℤ,
      parseInt (withDefault ((JsVal.obj [("page", JsVal.str "3")]).get "limit")
        (JsVal.num 10)) = some limitNum ∧
      1 ≤ limitNum ∧ limitNum ≤ 100 ∧ (limitNum : ℚ) ≠ 0 ∧
      ((∃ pageNum : ℤ,
          parseInt (withDefault ((JsVal.obj [("page", JsVal.str "3")]).get "page")
            (JsVal.num 1)) = some pageNum ∧
          1 ≤ pageNum ∧ 0 ≤ (pageNum - 1) * limitNum) ∨
        parseIntNumber (withDefault ((JsVal.obj [("page", JsVal.str "3")]).get "page")
          (JsVal.num 1)) = JsVal.inf false) :=
  overflowing_page_accepted.2.1 (JsVal.obj [("page", JsVal.str "3")])
    { isValid := true, errors := [] } rfl (Or.inl (by decide))

/-- C20. For a limit `L ≥ 1` and a page `P ≥ 1`, `hasNextPage` is true exactly when
`P * L < T`, that is when a matching rating lies past the window that ends at
`skip + L`; with `T = 0` there are 0 pages and no next page, as `getUserRatings` answers
for a user without ratings. -/
theorem next_page_iff (P L : ℤ) (T : ℕ) (hP : 1 ≤ P) (hL : 1 ≤ L) :
    ((pagination P L T).hasNextPage = true ↔ P * L < T) ∧
    ((pagination P L T).hasNextPage = true ↔ (P - 1) * L + L < T) ∧
    (pagination P L 0).totalPages = 0 ∧
    (pagination P L 0).hasNextPage = false ∧
    (∀ (w : World) (uid : String) (query : JsVal) (status : Nat) (msg : String)
        (data : UserRatings),
      getUserRatings w uid query = Reply.success status msg data →
      (∀ r ∈ w.ratings, r.userFirebaseUid ≠ uid) →
      data.ratings = [] ∧ data.pagination.totalRatings = 0 ∧
      data.pagination.totalPages = 0 ∧ data.pagination.hasNextPage = false) := by
  have hLq : (0 : ℚ) < (L : ℚ) := by exact_mod_cast (by omega : (0 : Int) < L)
  have hnext : (pagination P L T).hasNextPage = true ↔ P * L < T := by
    simp only [pagination, decide_eq_true_eq]
    rw [Int.lt_ceil, lt_div_iff₀ hLq]
    exact_mod_cast Iff.rfl
  have hzero : ∀ P' L' : ℤ, 1 ≤ P' →
      (pagination P' L' 0).totalPages = 0 ∧ (pagination P' L' 0).hasNextPage = false := by
    intro P' L' hP'
    have hc : ⌈((0 : ℕ) : ℚ) / (L' : ℚ)⌉ = 0 := by simp
    refine ⟨hc, ?_⟩
    simp only [pagination, hc, decide_eq_false_iff_not, not_lt]
    omega
  refine ⟨hnext, ?_, (hzero P L hP).1, (hzero P L hP).2, ?_⟩
  · rw [hnext]
    have : (P - 1) * L + L = P * L := by ring
    rw [this]
  · intro w uid query status msg data h hnone
    obtain ⟨P', L', -, -, hP', -, -, hrat, hpag⟩ := getUserRatings_success h
    have hempty : w.ratings.filter (fun r => r.userFirebaseUid == uid) = [] := by
      rw [List.filter_eq_nil_iff]
      intro r hr
      simpa using hnone r hr
    rw [hempty] at hrat hpag
    have hsort : ∀ sortBy direction, sortRatings sortBy direction [] = [] := by
      intro sortBy direction
      unfold sortRatings
      split_ifs <;> rfl
    rw [hsort] at hrat
    simp only [List.drop_nil, List.take_nil, List.length_nil] at hrat hpag
    rw [hpag]
    exact ⟨hrat, rfl, (hzero P' L' hP').1, (hzero P' L' hP').2⟩

theorem next_page_iff_witness :
    (pagination 1 2 3).hasNextPage = true ∧ (pagination 2 2 3).hasNextPage = false ∧
    (pagination 1 10 0).totalPages = 0 := by
  have h1 := next_page_iff 1 2 3 (by decide) (by decide)
  have h2 := next_page_iff 2 2 3 (by decide) (by decide)
  have h3 := next_page_iff 1 10 0 (by decide) (by decide)
  refine ⟨h1.1.mpr (by decide), ?_, h3.2.2.1⟩
  cases hn : (pagination 2 2 3).hasNextPage
  · rfl
  · have := h2.1.mp hn
    omega

end Evercut
